import Mathlib

/-!
# Industrial monitoring dashboard: alert pipeline

A shallow embedding of the client-side alert pipeline of the dashboard:

* the Notification Presenter of `components/Alerts/GlobalAlertNotification.js`
  (React state `openAlert`, `currentAlert`, `alertQueue`, `expanded`);
* the Alert Aggregator of `context/AlertsContext.js` (React state `alerts`,
  `loading`, `error`).

React state is modelled by explicit state passing: every handler is a function
from the state before the event to the state after it.  The 300 ms
`setTimeout` of `handleCloseAlert` is modelled twice: as a pending timer that
carries the queue its closure captured and fires as an event of its own
(`requestClose`, `fireCloseTimer`, `timelineStep`), and atomically, the timer
firing before any other event (`handleCloseAlert`).  The REST collaborator is
a parameter: the outcome of the awaited call is an input of the operation.
-/

namespace Surveillance

/-! ## Data model -/

/-- An alert record as exchanged with the REST collaborator and the live
channel.  Fields that a record may lack are optional. -/
structure Alert where
  _id : String
  machine_id : String
  message : Option String
  sensor_type : String
  risk_level : Int
  status : String
  timestamp : String
  suggestions : List String
  resolved_by : Option String
  resolved_at : Option String
deriving DecidableEq, Repr

/-! ## Notification Presenter (`GlobalAlertNotification.js`) -/

/-- The four `useState` cells of `GlobalAlertNotification`. -/
structure PresenterState where
  openAlert : Bool
  currentAlert : Option Alert
  alertQueue : List Alert
  expanded : Bool
deriving DecidableEq, Repr

/-- Initial values of the `useState` cells. -/
def PresenterState.initial : PresenterState :=
  { openAlert := false, currentAlert := none, alertQueue := [], expanded := false }

/-- The array method `.sort((a, b) => b.risk_level - a.risk_level)`: a stable
sort by descending `risk_level` (`Array.prototype.sort` is stable, so entries
of equal risk keep their relative order). -/
def sortByRiskDesc (l : List Alert) : List Alert :=
  l.insertionSort (fun a b => b.risk_level ≤ a.risk_level)

/-- The `new_alert` subscription handler (lines 41-59): the alert is appended
to the queue and the queue re-sorted; the alert is displayed only when nothing
is open; `expanded` is always reset. -/
def onNewAlert (s : PresenterState) (alert : Alert) : PresenterState :=
  { alertQueue := sortByRiskDesc (s.alertQueue ++ [alert])
    currentAlert := if !s.openAlert then some alert else s.currentAlert
    openAlert := if !s.openAlert then true else s.openAlert
    expanded := false }

/-- A timer scheduled by `setTimeout` in `handleCloseAlert` (line 75).  Its
callback is a closure of the render in which the close was requested: the
`alertQueue` it reads (lines 76, 78) is the queue of that render, not the
queue at the time the timer fires. -/
structure CloseTimer where
  capturedQueue : List Alert
deriving DecidableEq, Repr

/-- The synchronous part of `handleCloseAlert(event, reason)` (lines 67-75):
nothing on `clickaway`; otherwise `setOpenAlert(false)` and a timer is
scheduled whose callback captures the current `alertQueue`.  `reason` is
`none` when the caller passes no reason (close button, `goToAlerts`). -/
def requestClose (s : PresenterState) (reason : Option String) :
    PresenterState × Option CloseTimer :=
  if reason = some "clickaway" then (s, none)
  else ({ s with openAlert := false }, some { capturedQueue := s.alertQueue })

/-- The callback given to `setTimeout` (lines 75-89), run on the state `s` it
finds when it fires: the test and the new queue come from the captured queue;
the `else` branch writes `alertQueue` and `currentAlert` only. -/
def fireCloseTimer (s : PresenterState) (timer : CloseTimer) : PresenterState :=
  if timer.capturedQueue.length > 1 then
    let newQueue := timer.capturedQueue.drop 1
    { openAlert := true
      currentAlert := newQueue.head?
      alertQueue := newQueue
      expanded := false }
  else
    { s with alertQueue := [], currentAlert := none }

/-- The function `handleCloseAlert(event, reason)` (lines 67-90) with its
300 ms timeout taken atomically: the synchronous part, then the timer
callback at once, no other event falling in between. -/
def handleCloseAlert (s : PresenterState) (reason : Option String) : PresenterState :=
  match requestClose s reason with
  | (s', none) => s'
  | (s', some timer) => fireCloseTimer s' timer

/-- Arrival of a finite sequence of alerts, in order. -/
def arrivals (s : PresenterState) (as : List Alert) : PresenterState :=
  as.foldl onNewAlert s

/-- The alerts displayed by repeated dismissal: after each dismissal the alert
then on display is recorded, until nothing is displayed. -/
def presentedOnDrain : Nat → PresenterState → List Alert
  | 0, _ => []
  | fuel + 1, s =>
    let s' := handleCloseAlert s none
    match s'.openAlert, s'.currentAlert with
    | true, some a => a :: presentedOnDrain fuel s'
    | _, _ => []

/-- A test alert with the given id and risk level. -/
def mkAlert (id : String) (risk : Int) : Alert :=
  { _id := id, machine_id := "machine-001", message := none, sensor_type := "temperature"
    risk_level := risk, status := "active", timestamp := "", suggestions := []
    resolved_by := none, resolved_at := none }

/-! ## Alert Aggregator (`AlertsContext.js`) -/

/-- Outcome of an awaited call to the REST collaborator: the promise resolves
with a value or rejects. -/
inductive RestResult (α : Type) where
  | resolved (value : α)
  | rejected
deriving DecidableEq, Repr

/-- The value `api.alerts.getAll()` resolves with: an array of alerts, or
anything else (`Array.isArray(data)` false). -/
inductive AlertsPayload where
  | array (data : List Alert)
  | notArray
deriving DecidableEq, Repr

/-- How a call of an operation ends: it returns a value or an exception
escapes it. -/
inductive Completion (α : Type) where
  | returned (value : α)
  | threw
deriving DecidableEq, Repr

/-- The three `useState` cells of `AlertsProvider`. -/
structure AggregatorState where
  alerts : List Alert
  loading : Bool
  error : Option String
deriving DecidableEq, Repr

/-- JavaScript truthiness of the session token: `null` and the empty string
are falsy. -/
def tokenPresent : Option String → Bool
  | none => false
  | some t => t != ""

/-- The function `fetchAlerts` (lines 18-40), run to the completion of the
awaited `api.alerts.getAll()`, whose outcome is `response`. -/
def fetchAlerts (token : Option String) (response : RestResult AlertsPayload)
    (s : AggregatorState) : AggregatorState :=
  if !tokenPresent token then s
  else
    match response with
    | .resolved (.array data) => { alerts := data, loading := false, error := none }
    | .resolved .notArray => { alerts := [], loading := false, error := none }
    | .rejected =>
      { alerts := s.alerts, loading := false, error := some "Échec du chargement des alertes" }

/-- The function `resolveAlert` (lines 42-59), run to the completion of the
awaited `api.alerts.resolve(alertId)`, whose outcome is `response`.  The
returned value is `none` for JavaScript `undefined`. -/
def resolveAlert (token : Option String) (response : RestResult Unit)
    (alerts : List Alert) (alertId : String) : Completion (Option Bool) × List Alert :=
  if !tokenPresent token then (.returned none, alerts)
  else
    match response with
    | .resolved _ => (.returned (some true), alerts.filter (fun alert => alert._id != alertId))
    | .rejected => (.returned (some false), alerts)

/-- The function `addAlert` (lines 62-65). -/
def addAlert (alerts : List Alert) (newAlert : Alert) : List Alert :=
  newAlert :: alerts

/-- The function `deleteAlertsByMachineId` (lines 68-77): the new alert list
and the returned value. -/
def deleteAlertsByMachineId (alerts : List Alert) (machineId : String) : List Alert × Bool :=
  (alerts.filter (fun alert => alert.machine_id != machineId), true)

/-- The `new_alert` handler of the Aggregator (lines 84-87). -/
def onNewAlertEvent (alerts : List Alert) (alert : Alert) : List Alert :=
  alert :: alerts

/-- The `map` of the `alert_resolved` handler from index `i` on; `clock j` is
the value of `new Date().toISOString()` read at the element of index `j`. -/
def markResolvedFrom (clock : Nat → String) (alert_id : String) (resolved_by : Option String) :
    Nat → List Alert → List Alert
  | _, [] => []
  | i, alert :: rest =>
    (if alert._id = alert_id then
      { alert with status := "resolved", resolved_by := resolved_by, resolved_at := some (clock i) }
    else alert) :: markResolvedFrom clock alert_id resolved_by (i + 1) rest

/-- The `alert_resolved` handler (lines 90-101). -/
def onAlertResolved (clock : Nat → String) (alert_id : String) (resolved_by : Option String)
    (alerts : List Alert) : List Alert :=
  markResolvedFrom clock alert_id resolved_by 0 alerts

/-- The function `getActiveAlerts` (lines 116-120). -/
def getActiveAlerts (alerts : List Alert) : List Alert :=
  alerts.filter (fun alert => alert.status = "active")

/-- An alert with the given id, machine and status, for concrete scenarios. -/
def mkMachineAlert (id machine status : String) : Alert :=
  { _id := id, machine_id := machine, message := none, sensor_type := "temperature"
    risk_level := 80, status := status, timestamp := "", suggestions := []
    resolved_by := none, resolved_at := none }

/-- A queue ordered by non-increasing `risk_level`. -/
def DescByRisk (q : List Alert) : Prop :=
  q.Pairwise (fun a b => b.risk_level ≤ a.risk_level)

/-- Specification of a stable insertion: `a` is placed after every entry whose
risk is at least its own and before the first entry of lower risk. -/
def insertAfterNotLower (a : Alert) : List Alert → List Alert
  | [] => [a]
  | b :: rest =>
    if a.risk_level ≤ b.risk_level then b :: insertAfterNotLower a rest else a :: b :: rest

/-- The queue built from arrivals by stable insertion, one at a time. -/
def stableQueue (as : List Alert) : List Alert :=
  as.foldl (fun q a => insertAfterNotLower a q) []

/-! ## Concrete scenarios -/

/-- The alert on display when the test arrivals come in. -/
def shownX : Alert := mkAlert "x" 50

/-- The Presenter showing `shownX` after arrivals of risk 30, 90, 60. -/
def afterArrivals : PresenterState :=
  arrivals (onNewAlert PresenterState.initial shownX)
    [mkAlert "a" 30, mkAlert "b" 90, mkAlert "c" 60]

/-- The Presenter showing `shownX` with one arrival of higher risk queued. -/
def showingBehindHead : PresenterState :=
  onNewAlert (onNewAlert PresenterState.initial shownX) (mkAlert "b" 90)

/-- The Aggregator state before anything was fetched. -/
def emptyAggregator : AggregatorState :=
  { alerts := [], loading := false, error := none }

/-- A new active alert, delivered both by REST and by the live channel. -/
def raceAlert : Alert := mkMachineAlert "n1" "machine-002" "active"

/-- The purge scenario of the specification: alert 1 on `machine-002`, alert 2
on `machine-003`. -/
def purgeScenario : List Alert :=
  [mkMachineAlert "1" "machine-002" "active", mkMachineAlert "2" "machine-003" "resolved"]

/-- A clock that reads the instant of a first resolution event. -/
def earlyClock : Nat → String := fun _ => "2024-01-01T00:00:00.000Z"

/-- A clock that reads the instant of a later resolution event. -/
def lateClock : Nat → String := fun _ => "2024-06-01T12:00:00.000Z"

/-- The alert state after `raceAlert` was resolved by a first `alert_resolved`
event: its entry carries `resolved_at` of the first event. -/
def resolvedOnce : List Alert :=
  onAlertResolved earlyClock "n1" (some "alice") [raceAlert]

/-! ## Notification Presenter: events -/

/-- The function `toggleDetails` (lines 99-101). -/
def toggleDetails (s : PresenterState) : PresenterState :=
  { s with expanded := !s.expanded }

/-- The `autoHideDuration` prop given to the Snackbar (line 166), in
milliseconds; `none` is JavaScript `null` (no automatic close). -/
def autoHideDuration (s : PresenterState) : Option Nat :=
  if s.expanded then none else some 12000

/-- The events the Presenter reacts to when dismissals are atomic: a
`new_alert` from the channel, a call of `handleCloseAlert` with its reason
whose timer fires before the next event, a click on the details button. -/
inductive PresenterEvent where
  | newAlert (alert : Alert)
  | close (reason : Option String)
  | toggle
deriving DecidableEq, Repr

/-- One event handled from state `s`. -/
def presenterStep (s : PresenterState) : PresenterEvent → PresenterState
  | .newAlert alert => onNewAlert s alert
  | .close reason => handleCloseAlert s reason
  | .toggle => toggleDetails s

/-- The state reached from the initial state by a sequence of events. -/
def presenterRun (events : List PresenterEvent) : PresenterState :=
  events.foldl presenterStep PresenterState.initial

/-- The alerts that arrived during a sequence of events, in arrival order. -/
def arrivalLog : List PresenterEvent → List Alert
  | [] => []
  | .newAlert alert :: rest => alert :: arrivalLog rest
  | _ :: rest => arrivalLog rest

/-- The Presenter showing `shownX` with its details expanded. -/
def expandedShowing : PresenterState :=
  toggleDetails (onNewAlert PresenterState.initial (mkAlert "x" 50))

/-! ## Notification Presenter: events in real time -/

/-- The Presenter in real time: its state and the close timers scheduled and
not yet fired, oldest first (all have the same 300 ms delay, so they fire in
the order they were scheduled). -/
structure PresenterTimeline where
  state : PresenterState
  pending : List CloseTimer
deriving DecidableEq, Repr

/-- The Presenter as mounted: initial state, no timer scheduled. -/
def PresenterTimeline.initial : PresenterTimeline :=
  { state := PresenterState.initial, pending := [] }

/-- The events of the Presenter in real time: a `new_alert` from the channel,
a call of `handleCloseAlert` with its reason, the oldest pending close timer
firing, a click on the details button. -/
inductive TimelineEvent where
  | newAlert (alert : Alert)
  | close (reason : Option String)
  | timerFires
  | toggle
deriving DecidableEq, Repr

/-- One event handled in real time.  A close runs the synchronous part of
`handleCloseAlert` and schedules its timer; the timer callback runs when the
timer fires, on the state it then finds and with the queue it captured. -/
def timelineStep (t : PresenterTimeline) : TimelineEvent → PresenterTimeline
  | .newAlert alert => { t with state := onNewAlert t.state alert }
  | .close reason =>
    match requestClose t.state reason with
    | (s, none) => { t with state := s }
    | (s, some timer) => { state := s, pending := t.pending ++ [timer] }
  | .timerFires =>
    match t.pending with
    | [] => t
    | timer :: rest => { state := fireCloseTimer t.state timer, pending := rest }
  | .toggle => { t with state := toggleDetails t.state }

/-- The timeline reached from the mounted Presenter by a sequence of events. -/
def timelineRun (events : List TimelineEvent) : PresenterTimeline :=
  events.foldl timelineStep PresenterTimeline.initial

/-- An alert arrives between a close and its timer: alert `x` (risk 50) is
shown and closed, alert `c` (risk 60) arrives within the 300 ms, then the
timer fires. -/
def staleTimerScenario : List TimelineEvent :=
  [.newAlert (mkAlert "x" 50), .close none, .newAlert (mkAlert "c" 60), .timerFires]

/-! ## REST payloads and the alerts panel (`api.js`, `AlertsPanel.js`) -/

/-- What `apiRequest('/api/alerts')` resolves with, as `api.alerts.getAll`
sees it: an array, a falsy value (`null`, `""`, `0`, `false`) or any other
value (object, non-empty text, number). -/
inductive ApiPayload where
  | array (data : List Alert)
  | falsy
  | other
deriving DecidableEq, Repr

/-- The function `api.alerts.getAll` (api.js lines 202-209): the response is
passed on as `response || []`. -/
def apiAlertsGetAll : RestResult ApiPayload → RestResult AlertsPayload
  | .resolved (.array data) => .resolved (.array data)
  | .resolved .falsy => .resolved (.array [])
  | .resolved .other => .resolved .notArray
  | .rejected => .rejected

/-- How a call of `fetchAlerts` ends (lines 18-40): without a token it
returns at once; otherwise a rejected REST call is handled by the `catch`
block, which does not rethrow. -/
def fetchAlertsCompletion (token : Option String) (response : RestResult AlertsPayload) :
    Completion Unit :=
  if !tokenPresent token then .returned ()
  else
    match response with
    | .resolved _ => .returned ()
    | .rejected => .returned ()

/-- The member `deleteAlert` of the value object of `AlertsContext.Provider`
(AlertsContext.js lines 123-132): the object has the keys `alerts`, `loading`,
`error`, `resolveAlert`, `fetchAlerts`, `getActiveAlerts`, `addAlert` and
`deleteAlertsByMachineId` only, so the name destructured by `AlertsPanel`
(line 41) is `undefined`, here `none`. -/
def providerDeleteAlert : Option (RestResult Unit → List Alert → String → List Alert) :=
  none

/-- The `confirmDialog` state of `AlertsPanel`. -/
structure ConfirmDialog where
  isOpen : Bool
  alertId : Option String
deriving DecidableEq, Repr

/-- The function `handleDelete` of `AlertsPanel` (lines 97-107), given the
outcome the REST delete call would have: the Aggregator's alerts and the
dialog afterwards.  Calling an `undefined` `deleteAlert` throws a `TypeError`
inside the `try` block; the `catch` block logs it and the `finally` block
closes the dialog. -/
def handleDelete (response : RestResult Unit) (alerts : List Alert)
    (confirmDialog : ConfirmDialog) : Completion Unit × List Alert × ConfirmDialog :=
  let closed : ConfirmDialog := { isOpen := false, alertId := none }
  match confirmDialog.alertId with
  | none => (.returned (), alerts, closed)
  | some id =>
    if id = "" then (.returned (), alerts, closed)
    else
      match providerDeleteAlert with
      | some deleteAlert => (.returned (), deleteAlert response alerts id, closed)
      | none => (.returned (), alerts, closed)

/-- Whether a call ended by an exception escaping it. -/
def Completion.didThrow {α : Type} : Completion α → Bool
  | .returned _ => false
  | .threw => true

/-- The initial `confirmDialog` of `AlertsPanel` (line 43). -/
def ConfirmDialog.initial : ConfirmDialog :=
  { isOpen := false, alertId := none }

/-- The handlers wired to the page that write `confirmDialog`: the dialog's
`onClose` and its Cancel button (lines 276, 285), and its Delete button, which
runs `handleDelete` (line 288), with the outcome the REST delete call would
have.  `handleDeleteConfirm` (lines 93-95), the one function that stores an
alert id and opens the dialog, is called from nowhere, so it is no event. -/
inductive DialogEvent where
  | dismiss
  | confirmDelete (response : RestResult Unit)
deriving DecidableEq, Repr

/-- One dialog event handled from the Aggregator's alerts and the dialog. -/
def dialogStep (p : List Alert × ConfirmDialog) : DialogEvent → List Alert × ConfirmDialog
  | .dismiss => (p.1, { p.2 with isOpen := false })
  | .confirmDelete response =>
    ((handleDelete response p.1 p.2).2.1, (handleDelete response p.1 p.2).2.2)

/-- The alerts and the dialog after a sequence of dialog events, the dialog
starting from its initial value. -/
def dialogRun (alerts : List Alert) (events : List DialogEvent) : List Alert × ConfirmDialog :=
  events.foldl dialogStep (alerts, ConfirmDialog.initial)

/-! ## Event channel (`socket-mock.js`, `SocketContext.js`) -/

/-- A callback, identified by its function reference. -/
abbrev HandlerId := Nat

/-- The fields of a `MockSocket`: the own properties of the object
`this.handlers` (event name and its array of callbacks) and `connected`. -/
structure MockSocket where
  handlers : List (String × List HandlerId)
  connected : Bool
deriving DecidableEq, Repr

/-- The state built by the constructor of `MockSocket`. -/
def MockSocket.fresh : MockSocket :=
  { handlers := [], connected := true }

/-- The property names every object literal inherits from `Object.prototype`;
`this.handlers = {}` is an object literal. -/
def objectPrototypeKeys : List String :=
  ["constructor", "__defineGetter__", "__defineSetter__", "hasOwnProperty",
   "__lookupGetter__", "__lookupSetter__", "isPrototypeOf", "propertyIsEnumerable",
   "toString", "valueOf", "__proto__", "toLocaleString"]

/-- The value of the expression `this.handlers[event]`. -/
inductive HandlersEntry where
  | undefined
  | array (callbacks : List HandlerId)
  | inherited
deriving DecidableEq, Repr

/-- The expression `this.handlers[event]`: an own property, else a property
inherited from `Object.prototype` (a function or an object, never an array),
else `undefined`. -/
def MockSocket.entry (m : MockSocket) (event : String) : HandlersEntry :=
  match m.handlers.lookup event with
  | some callbacks => .array callbacks
  | none => if objectPrototypeKeys.contains event then .inherited else .undefined

/-- The assignment `this.handlers[event] = callbacks`. -/
def MockSocket.setEntry (m : MockSocket) (event : String) (callbacks : List HandlerId) :
    MockSocket :=
  { m with
    handlers :=
      if (m.handlers.lookup event).isSome then
        m.handlers.map (fun p => if p.1 = event then (event, callbacks) else p)
      else m.handlers ++ [(event, callbacks)] }

/-- The handler list of an event: its array, empty when it has none. -/
def MockSocket.handlerList (m : MockSocket) (event : String) : List HandlerId :=
  (m.handlers.lookup event).getD []

/-- The method `on(event, callback)` (lines 13-18).  On an inherited entry
`.push` is not a function and the call throws a `TypeError`. -/
def MockSocket.on (m : MockSocket) (event : String) (callback : HandlerId) :
    Completion Unit × MockSocket :=
  match m.entry event with
  | .undefined => (.returned (), m.setEntry event [callback])
  | .array callbacks => (.returned (), m.setEntry event (callbacks ++ [callback]))
  | .inherited => (.threw, m)

/-- The method `off(event, callback)` (lines 20-23).  On an inherited entry
`.filter` is not a function and the call throws a `TypeError`. -/
def MockSocket.off (m : MockSocket) (event : String) (callback : HandlerId) :
    Completion Unit × MockSocket :=
  match m.entry event with
  | .undefined => (.returned (), m)
  | .array callbacks => (.returned (), m.setEntry event (callbacks.filter (fun cb => cb != callback)))
  | .inherited => (.threw, m)

/-- The method `emit(event, data)` (lines 25-27): it only logs.  The third
component lists the handler invocations made, with their payload. -/
def MockSocket.emit (m : MockSocket) (_event : String) (_data : String) :
    Completion Unit × MockSocket × List (HandlerId × String) :=
  (.returned (), m, [])

/-- A call on the mock channel. -/
inductive SocketCall where
  | on (event : String) (callback : HandlerId)
  | off (event : String) (callback : HandlerId)
  | emit (event : String) (data : String)
deriving DecidableEq, Repr

/-- One call on the mock: how it ends, the mock afterwards and the handler
invocations it made. -/
def MockSocket.call (m : MockSocket) :
    SocketCall → Completion Unit × MockSocket × List (HandlerId × String)
  | .on event callback => ((m.on event callback).1, (m.on event callback).2, [])
  | .off event callback => ((m.off event callback).1, (m.off event callback).2, [])
  | .emit event data => m.emit event data

/-- A sequence of calls on the mock, each made whatever the previous one did:
the mock afterwards and all handler invocations made. -/
def MockSocket.calls (m : MockSocket) : List SocketCall → MockSocket × List (HandlerId × String)
  | [] => (m, [])
  | c :: rest =>
    ((MockSocket.calls (m.call c).2.1 rest).1,
      (m.call c).2.2 ++ (MockSocket.calls (m.call c).2.1 rest).2)

/-- The function a `subscribe` call returns: run on the current state of the
mock, it gives how the call ends and the mock afterwards. -/
abbrev Unsubscribe := MockSocket → Completion Unit × MockSocket

/-- The function `subscribe` of `SocketProvider` (SocketContext.js lines
74-82) with the mock as socket, `none` when there is no socket. -/
def subscribe (socket : Option MockSocket) (event : String) (callback : HandlerId) :
    Completion Unsubscribe × Option MockSocket :=
  match socket with
  | none => (.returned (fun current => (.returned (), current)), none)
  | some m =>
    match m.on event callback with
    | (.returned _, m') => (.returned (fun current => current.off event callback), some m')
    | (.threw, m') => (.threw, some m')

/-- The function `emit` of `SocketProvider` (SocketContext.js lines 84-87). -/
def emit (socket : Option MockSocket) (event : String) (data : String) :
    Completion Unit × Option MockSocket × List (HandlerId × String) :=
  match socket with
  | none => (.returned (), none, [])
  | some m => ((m.emit event data).1, some (m.emit event data).2.1, (m.emit event data).2.2)

/-- A mock with two handlers on `new_alert` and one on `sensor_update`. -/
def busyMock : MockSocket :=
  { handlers := [("new_alert", [1, 2]), ("sensor_update", [3])], connected := true }

/-! ## Session storage and `apiRequest` (`api.js`, `AuthContext.js`) -/

/-- The browser's `localStorage`: its keys and their values. -/
abbrev Storage := List (String × String)

/-- The call `localStorage.getItem(key)`; `none` is `null`. -/
def Storage.getItem (s : Storage) (key : String) : Option String :=
  s.lookup key

/-- The call `localStorage.removeItem(key)`. -/
def Storage.removeItem (s : Storage) (key : String) : Storage :=
  s.filter (fun p => p.1 != key)

/-- The body of an HTTP response as `response.json()` sees it: text that does
not parse, the JSON value `null`, or any other JSON value. -/
inductive JsonBody where
  | unparsable
  | null
  | value
deriving DecidableEq, Repr

/-- What `apiRequest` reads of the response of `fetch`: the status, whether the
`content-type` header includes `application/json`, and the body. -/
structure HttpResponse where
  status : Nat
  jsonContentType : Bool
  body : JsonBody
deriving DecidableEq, Repr

/-- The property `response.ok`: a status from 200 to 299. -/
def HttpResponse.ok (r : HttpResponse) : Bool :=
  200 ≤ r.status && r.status ≤ 299

/-- How the `try` block of `apiRequest` ends (api.js lines 30-58): it returns
the data, or throws an error that carries `status`, or throws an error without
`status` (a rejected `fetch`, a rejected `response.json()`, or the `TypeError`
of reading `data.error` on `null`). -/
inductive TryOutcome where
  | returned
  | thrownWithStatus (status : Nat)
  | thrownWithoutStatus
deriving DecidableEq, Repr

/-- The `try` block of `apiRequest` (api.js lines 30-58). -/
def apiRequestTry : RestResult HttpResponse → TryOutcome
  | .rejected => .thrownWithoutStatus
  | .resolved r =>
    if r.jsonContentType then
      match r.body with
      | .unparsable => .thrownWithoutStatus
      | .null => if r.ok then .returned else .thrownWithoutStatus
      | .value => if r.ok then .returned else .thrownWithStatus r.status
    else
      if r.ok then .returned else .thrownWithStatus r.status

/-- The function `apiRequest` (api.js lines 14-67) as far as `localStorage` is
concerned: how the call ends and the storage afterwards.  The `catch` block
removes `token` when the error's status is 401 and rethrows. -/
def apiRequest (storage : Storage) (fetchOutcome : RestResult HttpResponse) :
    Completion Unit × Storage :=
  match apiRequestTry fetchOutcome with
  | .returned => (.returned (), storage)
  | .thrownWithStatus status =>
    (.threw, if status = 401 then storage.removeItem "token" else storage)
  | .thrownWithoutStatus => (.threw, storage)

/-- The effect of `logout` on `localStorage` (AuthContext.js lines 24-25). -/
def logoutStorage (storage : Storage) : Storage :=
  (storage.removeItem "token").removeItem "user"

/-- A persisted session: credential and user profile. -/
def persistedSession : Storage :=
  [("token", "abc"), ("user", "operator-profile")]

/-- A 401 response with a JSON error body. -/
def unauthorized : HttpResponse :=
  { status := 401, jsonContentType := true, body := .value }

/-- A 401 response announced as JSON whose body is the JSON value `null`. -/
def unauthorizedNullBody : HttpResponse :=
  { status := 401, jsonContentType := true, body := .null }

/-- A 401 response announced as JSON whose body does not parse (an empty
body, for one). -/
def unauthorizedUnparsableBody : HttpResponse :=
  { status := 401, jsonContentType := true, body := .unparsable }

/-! ## Demo forecast (`FuturePredictions.js`)

JavaScript numbers are modelled by exact rationals. -/

/-- The function `Math.floor`. -/
def mathFloor (x : ℚ) : Int := ⌊x⌋

/-- The function `Math.round`: the nearest integer, halves rounded up. -/
def mathRound (x : ℚ) : Int := ⌊x + 1 / 2⌋

/-- The `sensor` argument of `predictSensorTrend`, as far as it is read. -/
structure Sensor where
  sensor_type : String
  machineId : String
  current_value : ℚ
deriving DecidableEq

/-- An entry of `machineHistory`, as far as it is read or written. -/
structure SensorHistory where
  progression : ℚ
  previousValues : List ℚ
deriving DecidableEq

/-- The history used when `machineHistory` has no entry for the sensor key. -/
def SensorHistory.default : SensorHistory :=
  { progression := 0, previousValues := [] }

/-- The record `predictSensorTrend` returns; `none` is `null`. -/
structure Prediction where
  sensor_type : String
  current_value : ℚ
  future_value : ℚ
  time_to_threshold : Option Int
  risk_probability : Int
  prediction : String
  suggestions : List String
  will_have_issue : Bool
  machineId : String
deriving DecidableEq

/-- The statement `if (riskProbability > ceiling) riskProbability = ceiling`. -/
def capRisk (riskProbability ceiling : ℚ) : ℚ :=
  if riskProbability > ceiling then ceiling else riskProbability

/-- The statement `if (timeToThreshold < floor) timeToThreshold = floor`. -/
def floorTime (timeToThreshold floor : Int) : Int :=
  if timeToThreshold < floor then floor else timeToThreshold

/-- The branch of `predictSensorTrend` for machine-001 (lines 99-122): the
values of `riskProbability`, `timeToThreshold` and `futureValue` after it. -/
def alphaValues (sensor_type : String) (current_value : ℚ) (updateCounter : Nat)
    (progression : ℚ) : ℚ × Option Int × ℚ :=
  if sensor_type = "temperature" then
    (10 + (updateCounter % 3 : Nat) + progression / 10, none,
      current_value * (1.01 + progression * 0.001))
  else if sensor_type = "pressure" then
    (5 + (updateCounter % 2 : Nat) + progression / 15, none,
      current_value * (1.005 + progression * 0.0005))
  else if sensor_type = "vibration" then
    (8 + (updateCounter % 4 : Nat) + progression / 12, none,
      current_value * (1.008 + progression * 0.0008))
  else (0, none, current_value)

/-- The branch of `predictSensorTrend` for machine-002 (lines 125-160). -/
def betaValues (sensor_type : String) (current_value : ℚ) (updateCounter : Nat)
    (progression : ℚ) : ℚ × Option Int × ℚ :=
  if sensor_type = "temperature" then
    (capRisk (40 + updateCounter * 2 + progression * 1.5) 75,
      if progression > 2 then some (floorTime (25 - mathFloor (progression * 0.8)) 10) else none,
      current_value * (1.05 + progression * 0.008))
  else if sensor_type = "pressure" then
    (capRisk (12 + (updateCounter % 5 : Nat) + progression * 0.5) 30, none,
      current_value * (1.02 + progression * 0.002))
  else if sensor_type = "vibration" then
    (capRisk (15 + (updateCounter % 4 : Nat) + progression * 0.7) 35, none,
      current_value * (1.03 + progression * 0.003))
  else (0, none, current_value)

/-- The branch of `predictSensorTrend` for machine-003 (lines 163-206). -/
def gammaValues (sensor_type : String) (current_value : ℚ) (updateCounter : Nat)
    (progression : ℚ) : ℚ × Option Int × ℚ :=
  if sensor_type = "temperature" then
    (capRisk (60 + updateCounter * 1.5 + progression * 1.8) 90,
      if progression > 1 then some (floorTime (15 - mathFloor (progression * 0.6)) 5) else none,
      current_value * (1.15 + progression * 0.01))
  else if sensor_type = "pressure" then
    (capRisk (65 + updateCounter * 1.8 + progression * 2) 95,
      if progression > 1 then some (floorTime (18 - mathFloor (progression * 0.8)) 6) else none,
      current_value * (1.2 + progression * 0.012))
  else if sensor_type = "vibration" then
    (capRisk (30 + updateCounter * 1.2 + progression * 1.5) 75,
      if progression > 3 then some (floorTime (22 - mathFloor (progression * 0.7)) 8) else none,
      current_value * (1.1 + progression * 0.008))
  else (0, none, current_value)

/-- The branch of `predictSensorTrend` for machine-004 (lines 209-243). -/
def deltaValues (sensor_type : String) (current_value : ℚ) (updateCounter : Nat)
    (progression : ℚ) : ℚ × Option Int × ℚ :=
  if sensor_type = "temperature" then
    (capRisk (85 + updateCounter * 1 + progression * 1.2) 99,
      some (floorTime (5 - mathFloor (progression * 0.5)) 1),
      current_value * (1.3 + progression * 0.015))
  else if sensor_type = "pressure" then
    (capRisk (90 + updateCounter * 0.8 + progression * 1) 99,
      some (floorTime (3 - mathFloor (progression * 0.3)) 1),
      current_value * (1.35 + progression * 0.018))
  else if sensor_type = "vibration" then
    (capRisk (80 + updateCounter * 1.2 + progression * 1.5) 99,
      some (floorTime (8 - mathFloor (progression * 0.6)) 2),
      current_value * (1.25 + progression * 0.014))
  else (0, none, current_value)

/-- The profile branches of `predictSensorTrend` (lines 93-243): the values of
`riskProbability`, `timeToThreshold` and `futureValue` after them; a machine
without a profile keeps the initial values. -/
def profileValues (machineId sensor_type : String) (current_value : ℚ) (updateCounter : Nat)
    (progression : ℚ) : ℚ × Option Int × ℚ :=
  if machineId = "machine-001" then
    alphaValues sensor_type current_value updateCounter progression
  else if machineId = "machine-002" then
    betaValues sensor_type current_value updateCounter progression
  else if machineId = "machine-003" then
    gammaValues sensor_type current_value updateCounter progression
  else if machineId = "machine-004" then
    deltaValues sensor_type current_value updateCounter progression
  else (0, none, current_value)

/-- The suggestions chosen from the risk level (lines 255-281). -/
def suggestionsFor (riskProbability : ℚ) (sensor_type : String) : List String :=
  if riskProbability < 30 then
    ["Aucune action nécessaire", "Maintenance préventive planifiée"]
  else if riskProbability < 70 then
    ["Vérifier les paramètres de fonctionnement",
      if sensor_type = "temperature" then "Contrôler le système de refroidissement"
      else if sensor_type = "pressure" then "Vérifier les joints et les valves"
      else "Inspecter les pièces rotatives"]
  else
    "Intervention technique requise rapidement" ::
      (if sensor_type = "temperature" then
        ["Arrêt programmé pour remplacement du système thermique",
          "Réduire la charge de travail immédiatement"]
      else if sensor_type = "pressure" then
        ["Contrôler l'étanchéité du circuit principal",
          "Préparer le remplacement des joints défectueux"]
      else
        ["Inspection complète des roulements et alignement",
          "Envisager le remplacement des modules vibrants"])

/-- The message chosen from the risk level (lines 283-293). -/
def messageFor (riskProbability : ℚ) (sensor_type : String) : String :=
  if riskProbability < 30 then "Fonctionnement normal du capteur " ++ sensor_type
  else if riskProbability < 70 then
    "Surveillance recommandée: " ++ sensor_type ++ " montre des signes d'usure"
  else if riskProbability < 90 then "Risque élevé de défaillance du capteur " ++ sensor_type
  else "ALERTE CRITIQUE: Défaillance imminente du " ++ sensor_type

/-- The history written back by `predictSensorTrend` (lines 246-253). -/
def updatedHistory (updateCounter : Nat) (history : SensorHistory) (sensor : Sensor) :
    SensorHistory :=
  { progression := history.progression + (if updateCounter > 0 then 0.5 else 0)
    previousValues :=
      let values := history.previousValues ++ [sensor.current_value]
      values.drop (values.length - 5) }

/-- The function `predictSensorTrend` (lines 73-306), given the component's
`updateCounter` and the history entry of the sensor: the record returned. -/
def predictSensorTrend (updateCounter : Nat) (history : SensorHistory) (sensor : Sensor) :
    Prediction :=
  let values := profileValues sensor.machineId sensor.sensor_type sensor.current_value
    updateCounter history.progression
  { sensor_type := sensor.sensor_type
    current_value := sensor.current_value
    future_value := (mathRound (values.2.2 * 100) : ℚ) / 100
    time_to_threshold := values.2.1
    risk_probability := mathRound values.1
    prediction := messageFor values.1 sensor.sensor_type
    suggestions := suggestionsFor values.1 sensor.sensor_type
    will_have_issue := decide (values.1 > 50) && values.2.1.isSome
    machineId := sensor.machineId }

/-- The temperature sensor `analyzeFuture` builds for machine-001 (age 1). -/
def alphaTemperature : Sensor :=
  { sensor_type := "temperature", machineId := "machine-001", current_value := 67 }

/-- The history of a sensor after 2000 refreshes that each added 0.5. -/
def longHistory : SensorHistory :=
  { progression := 1000, previousValues := [67, 67, 67, 67, 67] }

/-! ## Demo forecast: the component state (`FuturePredictions.js`) -/

/-- The state `machineHistory`: the own properties of the object, one history
per sensor key. -/
abbrev MachineHistory := List (String × SensorHistory)

/-- The key `machineId-sensor_type` of a sensor in `machineHistory` (line 85). -/
def sensorKey (sensor : Sensor) : String :=
  sensor.machineId ++ "-" ++ sensor.sensor_type

/-- The expression `machineHistory[sensorKey] || { progression: 0, ... }`
(lines 86-91).  A sensor key holds a hyphen, which no property name inherited
from `Object.prototype` does, so only own properties are found. -/
def historyOf (machineHistory : MachineHistory) (sensor : Sensor) : SensorHistory :=
  (machineHistory.lookup (sensorKey sensor)).getD SensorHistory.default

/-- The object `{...prev, [key]: value}`. -/
def setHistory (machineHistory : MachineHistory) (key : String) (value : SensorHistory) :
    MachineHistory :=
  if (machineHistory.lookup key).isSome then
    machineHistory.map (fun p => if p.1 = key then (key, value) else p)
  else machineHistory ++ [(key, value)]

/-- A call `predictSensorTrend(sensor, machineAge)` inside the component whose
state holds `machineHistory` and `updateCounter` (lines 73-306): the record
returned and `machineHistory` after the pending `setMachineHistory`. -/
def predictSensorTrendCall (machineHistory : MachineHistory) (updateCounter : Nat)
    (sensor : Sensor) (_machineAge : ℚ) : Prediction × MachineHistory :=
  (predictSensorTrend updateCounter (historyOf machineHistory sensor) sensor,
    setHistory machineHistory (sensorKey sensor)
      (updatedHistory updateCounter (historyOf machineHistory sensor) sensor))

/-- The three sensors `analyzeFuture` builds for a machine of the given age
(lines 341-371). -/
def machineSensors (machine_id : String) (machineAge : ℚ) : List Sensor :=
  [{ sensor_type := "temperature", machineId := machine_id
     current_value := 65 + machineAge * 2 },
   { sensor_type := "pressure", machineId := machine_id
     current_value := 2.5 + machineAge * 0.1 },
   { sensor_type := "vibration", machineId := machine_id
     current_value := 8 + machineAge * 0.6 }]

/-- The expression `s.time_to_threshold || 999` (line 385): `null` and `0` are
falsy. -/
def timeOrFallback : Option Int → Int
  | none => 999
  | some t => if t = 0 then 999 else t

/-- The call `Math.min(...values)` on integers; `none` is the `Infinity` of an
empty argument list. -/
def mathMin : List Int → Option Int
  | [] => none
  | x :: rest => some (rest.foldl min x)

/-- The entry `analyzeFuture` records for a machine, as far as the forecast is
concerned (lines 394-401); `soonest_issue` is `none` for `null`. -/
structure MachineForecast where
  sensors : List Prediction
  has_future_issues : Bool
  soonest_issue : Option Int
deriving DecidableEq

/-- The body of the loop of `analyzeFuture` for one machine (lines 331-401),
given the age `getMachineAge` returned for it. -/
def analyzeMachine (machineHistory : MachineHistory) (updateCounter : Nat)
    (machine_id : String) (machineAge : ℚ) : MachineForecast :=
  let sensors := (machineSensors machine_id machineAge).map
    (fun sensor => (predictSensorTrendCall machineHistory updateCounter sensor machineAge).1)
  let hasFutureIssues := sensors.any (fun sensor => sensor.will_have_issue)
  { sensors := sensors
    has_future_issues := hasFutureIssues
    soonest_issue :=
      if hasFutureIssues then
        mathMin ((sensors.filter (fun s => s.will_have_issue)).map
          (fun s => timeOrFallback s.time_to_threshold))
      else none }

/-- The label of the Chip shown for a machine with future issues (lines
498-500): whether the branch `soonest_issue === 0` is taken. -/
def showsImmediateRisk (forecast : MachineForecast) : Bool :=
  forecast.has_future_issues && forecast.soonest_issue == some 0

/-! ## Emergency view (`Navbar.js`, `AlertsPanel.js`, `Dashboard.js`) -/

/-- The marker searched in alert messages. -/
def emergencyMarker : String := "ARRÊT D'URGENCE"

/-- The method `String.prototype.includes`. -/
def includes (text part : String) : Bool :=
  decide (part.data <:+: text.data)

/-- The filter condition `alert.message && alert.message.includes(marker)`
(Navbar.js lines 40-42, AlertsPanel.js line 122): a missing or empty message
is falsy. -/
def hasEmergencyMessage (alert : Alert) : Bool :=
  match alert.message with
  | none => false
  | some message => message != "" && includes message emergencyMarker

/-- The list `activeAlerts` of the Navbar (Navbar.js lines 39-42), computed
from `getActiveAlerts()`. -/
def navbarActiveAlerts (alerts : List Alert) : List Alert :=
  (getActiveAlerts alerts).filter hasEmergencyMessage

/-- The badge count `activeAlertsCount` (Navbar.js line 43). -/
def navbarActiveAlertsCount (alerts : List Alert) : Nat :=
  (navbarActiveAlerts alerts).length

/-- The list `activeAlerts` of `AlertsPanel` (AlertsPanel.js lines 120-123),
computed from its `alerts` prop. -/
def panelActiveAlerts (alertsProp : List Alert) : List Alert :=
  alertsProp.filter (fun alert => decide (alert.status = "active") && hasEmergencyMessage alert)

/-- The panel as the Dashboard renders it (Dashboard.js line 215): its prop
is `getActiveAlerts()`. -/
def dashboardPanelAlerts (alerts : List Alert) : List Alert :=
  panelActiveAlerts (getActiveAlerts alerts)

/-- A machine record, as far as `handleEmergencyStop` reads or writes it. -/
structure Machine where
  machine_id : String
  name : String
  status : String
deriving DecidableEq, Repr

/-- Decimal rendering of a non-negative integer, most significant digit
first, as a template literal renders `Date.now()`. -/
def decimal (n : Nat) : List Char :=
  if _h : n < 10 then [Nat.digitChar n]
  else decimal (n / 10) ++ [Nat.digitChar (n % 10)]
termination_by n
decreasing_by omega

/-- The id of a synthesized alert: `emergency-`, the machine id, a hyphen and
the timestamp (Dashboard.js line 68). -/
def emergencyAlertId (machineId : String) (now : Nat) : String :=
  "emergency-" ++ machineId ++ "-" ++ String.mk (decimal now)

/-- The alert `handleEmergencyStop` builds (Dashboard.js lines 67-76); the
JavaScript `suggestions` is the bare string, here a one-element list. -/
def emergencyAlert (machineId machineName : String) (now : Nat) (nowIso : String) : Alert :=
  { _id := emergencyAlertId machineId now
    machine_id := machineId
    message := some ("ARRÊT D'URGENCE: Machine " ++ machineName)
    sensor_type := "system"
    risk_level := 100
    status := "active"
    timestamp := nowIso
    suggestions := ["Contacter immédiatement l'équipe de maintenance"]
    resolved_by := none
    resolved_at := none }

/-- The function `handleEmergencyStop` (Dashboard.js lines 42-90), given the
outcome of the REST call, the value `now` of `Date.now()` and `nowIso` of
`new Date().toISOString()`: the machine list and the Aggregator's alerts
afterwards. -/
def handleEmergencyStop (response : RestResult Unit) (now : Nat) (nowIso : String)
    (machines : List Machine) (alerts : List Alert) (machineId : String) :
    List Machine × List Alert :=
  let machineName :=
    match machines.find? (fun m => m.machine_id == machineId) with
    | some targetMachine => targetMachine.name
    | none => "Machine " ++ machineId
  match response with
  | .rejected => (machines, alerts)
  | .resolved _ =>
    (machines.map (fun machine =>
        if machine.machine_id = machineId then { machine with status := "emergency_stop" }
        else machine),
      addAlert alerts (emergencyAlert machineId machineName now nowIso))

/-! ## Sensor readings (`MachineDetails.js`) -/

/-- A reading stored in `sensorData`. -/
structure Reading where
  sensor_id : Nat
  value : Int
  timestamp : String
  sensor_type : String
  machine_id : String
deriving DecidableEq, Repr

/-- The payload of a `sensor_update` event; `sensor_id` may be missing. -/
structure SensorUpdate where
  machine_id : String
  sensor_type : String
  sensor_id : Option Nat
  value : Int
  timestamp : String
deriving DecidableEq, Repr

/-- The state `sensorData`: the own properties of the object, one array of
readings per sensor type. -/
abbrev SensorData := List (String × List Reading)

/-- The value of the expression `newData[sensorType]`. -/
inductive SensorEntry where
  | undefined
  | array (readings : List Reading)
  | inherited
deriving DecidableEq, Repr

/-- The expression `newData[sensorType]` on the copy `{ ...prev }`: an own
property, else a property inherited from `Object.prototype` (never an array),
else `undefined`. -/
def sensorEntry (prev : SensorData) (sensorType : String) : SensorEntry :=
  match prev.lookup sensorType with
  | some readings => .array readings
  | none => if objectPrototypeKeys.contains sensorType then .inherited else .undefined

/-- The assignment `newData[sensorType] = readings`. -/
def setReadings (prev : SensorData) (sensorType : String) (readings : List Reading) :
    SensorData :=
  if (prev.lookup sensorType).isSome then
    prev.map (fun p => if p.1 = sensorType then (sensorType, readings) else p)
  else prev ++ [(sensorType, readings)]

/-- The reading built from an event (lines 88-94); `data.sensor_id || 0`. -/
def readingOf (machineId : String) (data : SensorUpdate) : Reading :=
  { sensor_id := data.sensor_id.getD 0
    value := data.value
    timestamp := data.timestamp
    sensor_type := data.sensor_type
    machine_id := machineId }

/-- The `sensor_update` handler of `MachineDetails` for machine `machineId`
(lines 73-103), its state updater included.  On an inherited entry `.slice`
is not a function and the updater throws a `TypeError`. -/
def onSensorUpdate (machineId : String) (prev : SensorData) (data : SensorUpdate) :
    Completion Unit × SensorData :=
  if data.machine_id = machineId then
    match sensorEntry prev data.sensor_type with
    | .undefined =>
      (.returned (), setReadings prev data.sensor_type [readingOf machineId data])
    | .array readings =>
      (.returned (),
        setReadings prev data.sensor_type (readingOf machineId data :: readings.take 49))
    | .inherited => (.threw, prev)
  else (.returned (), prev)

/-- The state `sensorData` after a sequence of events, from the initial empty
object. -/
def sensorDataAfter (machineId : String) (events : List SensorUpdate) : SensorData :=
  events.foldl (fun prev data => (onSensorUpdate machineId prev data).2) []

/-- The list stored for a sensor type, empty when it has none. -/
def storedReadings (sensorData : SensorData) (sensorType : String) : List Reading :=
  (sensorData.lookup sensorType).getD []

/-- The readings of machine `machineId` and type `sensorType` received in a
sequence of events, newest first, at most 50 of them. -/
def recentReadings (machineId sensorType : String) (events : List SensorUpdate) :
    List Reading :=
  (((events.filter (fun data =>
      decide (data.machine_id = machineId) && decide (data.sensor_type = sensorType))).map
    (readingOf machineId)).reverse).take 50

/-- A `sensor_update` event of machine-002 whose sensor type is the name of an
inherited property. -/
def inheritedTypeUpdate : SensorUpdate :=
  { machine_id := "machine-002", sensor_type := "constructor", sensor_id := some 1
    value := 42, timestamp := "2024-06-01T12:00:00.000Z" }

/-! ## Helper lemmas -/

theorem handleCloseAlert_clickaway (s : PresenterState) :
    handleCloseAlert s (some "clickaway") = s := by
  simp [handleCloseAlert, requestClose]

theorem handleCloseAlert_next (s : PresenterState) (reason : Option String)
    (hr : reason ≠ some "clickaway") (hq : 1 < s.alertQueue.length) :
    handleCloseAlert s reason =
      { openAlert := true, currentAlert := (s.alertQueue.drop 1).head?
        alertQueue := s.alertQueue.drop 1, expanded := false } := by
  simp [handleCloseAlert, requestClose, fireCloseTimer, hr, hq]

theorem handleCloseAlert_idle (s : PresenterState) (reason : Option String)
    (hr : reason ≠ some "clickaway") (hq : s.alertQueue.length ≤ 1) :
    handleCloseAlert s reason =
      { openAlert := false, currentAlert := none, alertQueue := [], expanded := s.expanded } := by
  have : ¬ 1 < s.alertQueue.length := by omega
  simp [handleCloseAlert, requestClose, fireCloseTimer, hr, this]

theorem markResolvedFrom_length (clock : Nat → String) (x : String) (rb : Option String)
    (L : List Alert) (i : Nat) : (markResolvedFrom clock x rb i L).length = L.length := by
  induction L generalizing i with
  | nil => rfl
  | cons a rest ih => simp [markResolvedFrom, ih]

theorem markResolvedFrom_getElem? (clock : Nat → String) (x : String) (rb : Option String)
    (L : List Alert) (i k : Nat) :
    (markResolvedFrom clock x rb i L)[k]? =
      (L[k]?).map (fun a =>
        if a._id = x then
          { a with status := "resolved", resolved_by := rb, resolved_at := some (clock (i + k)) }
        else a) := by
  induction L generalizing i k with
  | nil => simp [markResolvedFrom]
  | cons a rest ih =>
    cases k with
    | zero => simp [markResolvedFrom]
    | succ k =>
      simp only [markResolvedFrom, List.getElem?_cons_succ, ih]
      have : i + 1 + k = i + (k + 1) := by omega
      rw [this]

theorem markResolvedFrom_of_absent (clock : Nat → String) (x : String) (rb : Option String)
    (L : List Alert) (i : Nat) (h : ∀ a ∈ L, a._id ≠ x) :
    markResolvedFrom clock x rb i L = L := by
  induction L generalizing i with
  | nil => rfl
  | cons a rest ih =>
    have ha : a._id ≠ x := h a (List.mem_cons_self _ _)
    simp [markResolvedFrom, ha, ih (i + 1) (fun b hb => h b (List.mem_cons_of_mem _ hb))]

/-! ## Notification Presenter: dismissal and presentation order -/

/-- C1, evaluated on the code: with an alert of risk 50 on display, alerts of
risk 30, 90, 60 arrive; the queue is then `[90, 60, 50, 30]` with the risk-50
alert still displayed, and repeated dismissal displays `60, 50, 30`: the
risk-90 arrival is dropped without ever being displayed and the alert already
shown is displayed again, so the arrivals are not presented as `[90, 60, 30]`. -/
theorem presenter_drops_higher_risk_arrival :
    afterArrivals.alertQueue = [mkAlert "b" 90, mkAlert "c" 60, shownX, mkAlert "a" 30]
    ∧ afterArrivals.currentAlert = some shownX
    ∧ presentedOnDrain 10 afterArrivals = [mkAlert "c" 60, shownX, mkAlert "a" 30]
    ∧ presentedOnDrain 10 afterArrivals ≠ [mkAlert "b" 90, mkAlert "c" 60, mkAlert "a" 30] := by
  decide

/-- C2, evaluated on the code: in the reachable Showing state with queue
`[b(90), x(50)]` and `x` on display, `handleCloseAlert` removes the head `b`
and not the displayed alert: `x` is still in `alertQueue` and is displayed
again. -/
theorem dismiss_keeps_displayed_alert_when_not_head :
    showingBehindHead.openAlert = true
    ∧ showingBehindHead.currentAlert = some shownX
    ∧ showingBehindHead.alertQueue = [mkAlert "b" 90, shownX]
    ∧ shownX ∈ (handleCloseAlert showingBehindHead none).alertQueue
    ∧ (handleCloseAlert showingBehindHead none).currentAlert = some shownX := by
  decide

/-! ## Alert Aggregator -/

/-- C3, counterexample: from the empty state, when `fetchAlerts` completes with
`[raceAlert]` and the `new_alert` event for the same alert follows, the active
alerts hold two entries with that id, not exactly one. -/
theorem race_fetch_then_event_duplicates :
    ¬ (((getActiveAlerts
          (onNewAlertEvent
            (fetchAlerts (some "tok") (.resolved (.array [raceAlert])) emptyAggregator).alerts
            raceAlert)).filter (fun b => b._id = "n1")).length = 1) := by
  decide

/-- C3, amended: for every prior state `P`, every array response `D` whose only
alert with the id of `a` is `a` itself, `a` active and a token present: when
the `new_alert(a)` event comes first and `fetchAlerts` completes after it, the
active alerts hold exactly one alert with that id (`a`); when `fetchAlerts`
completes first and the event follows, they hold exactly two (`a` twice): the
alert is never lost and the event is not deduplicated. -/
theorem race_event_then_fetch_single (token : Option String) (P : AggregatorState)
    (D : List Alert) (a : Alert)
    (htok : tokenPresent token = true) (hact : a.status = "active")
    (hD : D.filter (fun b => b._id = a._id) = [a]) :
    (getActiveAlerts
        (fetchAlerts token (.resolved (.array D))
          { P with alerts := onNewAlertEvent P.alerts a }).alerts).filter
        (fun b => b._id = a._id) = [a]
    ∧ (getActiveAlerts
        (onNewAlertEvent (fetchAlerts token (.resolved (.array D)) P).alerts a)).filter
        (fun b => b._id = a._id) = [a, a] := by
  have hcomm : (getActiveAlerts D).filter (fun b => b._id = a._id) = [a] := by
    unfold getActiveAlerts
    rw [List.filter_filter]
    have : (D.filter (fun b => b._id = a._id)).filter (fun b => b.status = "active") = [a] := by
      rw [hD]; simp [hact]
    rw [List.filter_filter] at this
    rw [← this]
    congr 1
    funext b
    exact Bool.and_comm _ _
  constructor
  · simpa [fetchAlerts, htok] using hcomm
  · simp only [fetchAlerts, htok, onNewAlertEvent]
    simp only [getActiveAlerts] at hcomm ⊢
    simp [hact, List.filter_cons, hcomm]

/-- C3, witness of the amended claim at `D = [raceAlert]` from the empty state. -/
theorem race_event_then_fetch_single_witness :
    (getActiveAlerts
        (fetchAlerts (some "tok") (.resolved (.array [raceAlert]))
          { emptyAggregator with
            alerts := onNewAlertEvent emptyAggregator.alerts raceAlert }).alerts).filter
        (fun b => b._id = raceAlert._id) = [raceAlert]
    ∧ (getActiveAlerts
        (onNewAlertEvent
          (fetchAlerts (some "tok") (.resolved (.array [raceAlert])) emptyAggregator).alerts
          raceAlert)).filter
        (fun b => b._id = raceAlert._id) = [raceAlert, raceAlert] :=
  race_event_then_fetch_single (some "tok") emptyAggregator [raceAlert] raceAlert
    (by decide) (by decide) (by decide)

theorem resolveAlert_absent_state (token : Option String) (r : RestResult Unit)
    (alerts : List Alert) (x : String) (h : ∀ a ∈ alerts, a._id ≠ x) :
    (resolveAlert token r alerts x).2 = alerts := by
  have hf : alerts.filter (fun alert => alert._id != x) = alerts := by
    rw [List.filter_eq_self]
    intro a ha
    simpa using h a ha
  unfold resolveAlert
  split
  · rfl
  · cases r <;> simp [hf]

/-- C4: for every alert list `L` and machine id `m`, the list left by
`deleteAlertsByMachineId(m)` is a sublist of `L` (entries unchanged, original
order), holds no alert of machine `m`, holds every alert of another machine as
often as `L` does whatever its status, and is exactly `L` filtered by
`machine_id ≠ m`; the call returns `true`.  On the specification's scenario
(alert 1 on machine-002, alert 2 on machine-003) only alert 2 remains. -/
theorem deleteAlertsByMachineId_scope (L : List Alert) (m : String) :
    (deleteAlertsByMachineId L m).1.Sublist L
    ∧ (∀ a ∈ (deleteAlertsByMachineId L m).1, a.machine_id ≠ m)
    ∧ (∀ a, a.machine_id ≠ m → (deleteAlertsByMachineId L m).1.count a = L.count a)
    ∧ (∀ a, a ∈ (deleteAlertsByMachineId L m).1 ↔ a ∈ L ∧ a.machine_id ≠ m)
    ∧ (deleteAlertsByMachineId L m).1 = L.filter (fun a => a.machine_id ≠ m)
    ∧ (deleteAlertsByMachineId L m).2 = true
    ∧ (deleteAlertsByMachineId purgeScenario "machine-002").1
        = [mkMachineAlert "2" "machine-003" "resolved"] := by
  refine ⟨List.filter_sublist _, ?_, ?_, ?_, ?_, rfl, by decide⟩
  · intro a ha
    simpa [deleteAlertsByMachineId] using (List.mem_filter.mp ha).2
  · intro a ha
    simp only [deleteAlertsByMachineId]
    rw [List.count_filter]
    simpa using ha
  · intro a
    simp [deleteAlertsByMachineId, List.mem_filter]
  · simp only [deleteAlertsByMachineId]
    congr 1
    funext a
    simp [bne, BEq.beq]

/-- C5: when a token is present, the REST call succeeds and the state holds an
active alert with `_id = x`, `resolveAlert(x)` returns `true`; afterwards
`getActiveAlerts()` holds no alert with `_id = x`; the new state is a sublist
of the old one that holds every alert of another id as often as before (so it
is the old state with exactly the entries of id `x` removed), and it is
strictly shorter. -/
theorem resolveAlert_success_removes (token : Option String) (alerts : List Alert) (x : String)
    (htok : tokenPresent token = true)
    (hx : ∃ a ∈ getActiveAlerts alerts, a._id = x) :
    (resolveAlert token (.resolved ()) alerts x).1 = .returned (some true)
    ∧ (∀ a ∈ getActiveAlerts (resolveAlert token (.resolved ()) alerts x).2, a._id ≠ x)
    ∧ (resolveAlert token (.resolved ()) alerts x).2.Sublist alerts
    ∧ (∀ a, a._id ≠ x →
        (resolveAlert token (.resolved ()) alerts x).2.count a = alerts.count a)
    ∧ (resolveAlert token (.resolved ()) alerts x).2 = alerts.filter (fun a => a._id ≠ x)
    ∧ getActiveAlerts (resolveAlert token (.resolved ()) alerts x).2
        = (getActiveAlerts alerts).filter (fun a => a._id ≠ x)
    ∧ (resolveAlert token (.resolved ()) alerts x).2.length < alerts.length := by
  have hres : resolveAlert token (.resolved ()) alerts x
      = (.returned (some true), alerts.filter (fun a => a._id ≠ x)) := by
    simp only [resolveAlert, htok, Bool.not_true, Bool.false_eq_true, if_false]
    congr 2
    funext a
    simp [bne, BEq.beq]
  rw [hres]
  refine ⟨rfl, ?_, List.filter_sublist _, ?_, rfl, ?_, ?_⟩
  · intro a ha
    have := (List.mem_filter.mp (List.mem_filter.mp ha).1).2
    simpa using this
  · intro a ha
    rw [List.count_filter]
    simpa using ha
  · simp only [getActiveAlerts, List.filter_filter]
    congr 1
    funext a
    exact Bool.and_comm _ _
  · obtain ⟨a, ha, hax⟩ := hx
    have hmem : a ∈ alerts := (List.mem_filter.mp ha).1
    apply lt_of_le_of_ne (List.length_filter_le _ _)
    intro hlen
    have hsub : (alerts.filter (fun a => a._id ≠ x)) = alerts :=
      (List.filter_sublist alerts).eq_of_length hlen
    have := (List.filter_eq_self.mp hsub) a hmem
    simp [hax] at this

/-- C5, witness: resolving the only active alert `n1`. -/
theorem resolveAlert_success_removes_witness :
    (resolveAlert (some "tok") (.resolved ()) [raceAlert] "n1").1 = .returned (some true)
    ∧ (∀ a ∈ getActiveAlerts (resolveAlert (some "tok") (.resolved ()) [raceAlert] "n1").2,
        a._id ≠ "n1")
    ∧ (resolveAlert (some "tok") (.resolved ()) [raceAlert] "n1").2.Sublist [raceAlert]
    ∧ (∀ a, a._id ≠ "n1" →
        (resolveAlert (some "tok") (.resolved ()) [raceAlert] "n1").2.count a
          = [raceAlert].count a)
    ∧ (resolveAlert (some "tok") (.resolved ()) [raceAlert] "n1").2
        = [raceAlert].filter (fun a => a._id ≠ "n1")
    ∧ getActiveAlerts (resolveAlert (some "tok") (.resolved ()) [raceAlert] "n1").2
        = (getActiveAlerts [raceAlert]).filter (fun a => a._id ≠ "n1")
    ∧ (resolveAlert (some "tok") (.resolved ()) [raceAlert] "n1").2.length
        < [raceAlert].length :=
  resolveAlert_success_removes (some "tok") [raceAlert] "n1" (by decide)
    ⟨raceAlert, by decide, by decide⟩

/-- C6, counterexample: `resolveAlert("n1")` twice in a row with a token, both
REST calls succeeding: the second call, made when no alert `n1` is left in
local state, returns `true`, not `false`. -/
theorem second_resolve_returns_true_on_rest_success :
    (∀ a ∈ (resolveAlert (some "tok") (.resolved ()) [raceAlert] "n1").2, a._id ≠ "n1")
    ∧ ¬ ((resolveAlert (some "tok") (.resolved ())
          (resolveAlert (some "tok") (.resolved ()) [raceAlert] "n1").2 "n1").1
        = .returned (some false)) := by
  decide

/-- C6, amended: with a token present, after a first `resolveAlert(x)` whose
REST call succeeded no alert with `_id = x` is left, and a second
`resolveAlert(x)` leaves the alert state unchanged whatever its REST outcome;
it returns `false` exactly when its own REST call fails and `true` exactly
when that call succeeds (no local existence check is made). -/
theorem second_resolve_state_unchanged (token : Option String) (alerts : List Alert)
    (x : String) (r2 : RestResult Unit) (htok : tokenPresent token = true) :
    (∀ a ∈ (resolveAlert token (.resolved ()) alerts x).2, a._id ≠ x)
    ∧ (resolveAlert token r2 (resolveAlert token (.resolved ()) alerts x).2 x).2
        = (resolveAlert token (.resolved ()) alerts x).2
    ∧ ((resolveAlert token r2 (resolveAlert token (.resolved ()) alerts x).2 x).1
        = .returned (some false) ↔ r2 = .rejected)
    ∧ ((resolveAlert token r2 (resolveAlert token (.resolved ()) alerts x).2 x).1
        = .returned (some true) ↔ r2 = .resolved ()) := by
  have habs : ∀ a ∈ (resolveAlert token (.resolved ()) alerts x).2, a._id ≠ x := by
    intro a ha
    simp only [resolveAlert, htok, Bool.not_true, Bool.false_eq_true, if_false] at ha
    simpa using (List.mem_filter.mp ha).2
  refine ⟨habs, resolveAlert_absent_state token r2 _ x habs, ?_, ?_⟩
  · cases r2 <;> simp [resolveAlert, htok]
  · cases r2 <;> simp [resolveAlert, htok]

/-- C6, witness of the amended claim: second call with a failing REST call. -/
theorem second_resolve_state_unchanged_witness :
    (∀ a ∈ (resolveAlert (some "tok") (.resolved ()) [raceAlert] "n1").2, a._id ≠ "n1")
    ∧ (resolveAlert (some "tok") .rejected
          (resolveAlert (some "tok") (.resolved ()) [raceAlert] "n1").2 "n1").2
        = (resolveAlert (some "tok") (.resolved ()) [raceAlert] "n1").2
    ∧ ((resolveAlert (some "tok") .rejected
          (resolveAlert (some "tok") (.resolved ()) [raceAlert] "n1").2 "n1").1
        = .returned (some false) ↔ (RestResult.rejected : RestResult Unit) = .rejected)
    ∧ ((resolveAlert (some "tok") .rejected
          (resolveAlert (some "tok") (.resolved ()) [raceAlert] "n1").2 "n1").1
        = .returned (some true) ↔ (RestResult.rejected : RestResult Unit) = .resolved ()) :=
  second_resolve_state_unchanged (some "tok") [raceAlert] "n1" .rejected (by decide)

/-- C7, counterexample: with no token `resolveAlert` returns `undefined`,
which is neither `true` nor `false`. -/
theorem resolveAlert_without_token_returns_undefined :
    (resolveAlert none (.resolved ()) [raceAlert] "n1").1 = .returned none
    ∧ ¬ ((resolveAlert none (.resolved ()) [raceAlert] "n1").1 = .returned (some true)
        ∨ (resolveAlert none (.resolved ()) [raceAlert] "n1").1 = .returned (some false)) := by
  decide

/-- C7, amended: for every alert id, session state and REST outcome,
`resolveAlert` never throws; when a token is present its result is exactly
`true` or `false`; when no token is present it returns `undefined` and leaves
the alert state unchanged. -/
theorem resolveAlert_never_throws (token : Option String) (r : RestResult Unit)
    (alerts : List Alert) (x : String) :
    (resolveAlert token r alerts x).1 ≠ .threw
    ∧ (tokenPresent token = true →
        (resolveAlert token r alerts x).1 = .returned (some true)
        ∨ (resolveAlert token r alerts x).1 = .returned (some false))
    ∧ (tokenPresent token = false →
        (resolveAlert token r alerts x).1 = .returned none
        ∧ (resolveAlert token r alerts x).2 = alerts) := by
  cases htok : tokenPresent token <;> cases r <;> simp [resolveAlert, htok]

/-- C8: when a token is present and the REST resolve call fails, `resolveAlert`
returns `false`, no exception escapes, and the alert state is exactly what it
was before the call. -/
theorem resolveAlert_failure_atomic (token : Option String) (alerts : List Alert) (x : String)
    (htok : tokenPresent token = true) :
    (resolveAlert token .rejected alerts x).1 = .returned (some false)
    ∧ (resolveAlert token .rejected alerts x).1 ≠ .threw
    ∧ (resolveAlert token .rejected alerts x).2 = alerts := by
  simp [resolveAlert, htok]

/-- C8, witness: a failing resolve of `n1` on the purge scenario. -/
theorem resolveAlert_failure_atomic_witness :
    (resolveAlert (some "tok") .rejected purgeScenario "1").1 = .returned (some false)
    ∧ (resolveAlert (some "tok") .rejected purgeScenario "1").1 ≠ .threw
    ∧ (resolveAlert (some "tok") .rejected purgeScenario "1").2 = purgeScenario :=
  resolveAlert_failure_atomic (some "tok") purgeScenario "1" (by decide)

/-- C9: for every alert state `L` and alert `a`, both `addAlert(a)` and the
`new_alert(a)` handler yield exactly `a` followed by `L`; `addAlert(a)`
followed by `new_alert(a)` yields `a, a` followed by `L`, so the number of
entries with the id of `a` grows by two. -/
theorem insertion_prepends_without_dedup (L : List Alert) (a : Alert) :
    addAlert L a = a :: L
    ∧ onNewAlertEvent L a = a :: L
    ∧ (addAlert L a).head? = some a ∧ (addAlert L a).tail = L
    ∧ (onNewAlertEvent L a).head? = some a ∧ (onNewAlertEvent L a).tail = L
    ∧ onNewAlertEvent (addAlert L a) a = a :: a :: L
    ∧ ((onNewAlertEvent (addAlert L a) a).filter (fun b => b._id = a._id)).length
        = (L.filter (fun b => b._id = a._id)).length + 2 := by
  simp [addAlert, onNewAlertEvent]

/-- C10, counterexample: after a first `alert_resolved` event for `n1` the
alert carries `resolved_at` of that event (2024-01-01); a second event for
`n1` received on 2024-06-01 does not keep that field: `resolved_at` is
overwritten with the time of receipt. -/
theorem resolution_event_overwrites_resolved_at :
    resolvedOnce.map (fun b => b.resolved_at) = [some "2024-01-01T00:00:00.000Z"]
    ∧ (onAlertResolved lateClock "n1" (some "alice") resolvedOnce).map (fun b => b.resolved_at)
        = [some "2024-06-01T12:00:00.000Z"]
    ∧ ¬ ((onAlertResolved lateClock "n1" (some "alice") resolvedOnce).map
          (fun b => b.resolved_at) = resolvedOnce.map (fun b => b.resolved_at)) := by
  decide

/-- C10, amended: for every alert state `L` and `alert_resolved` event with
`alert_id = x`, the resulting list has the length of `L` and, position by
position, an alert with `_id = x` has status `resolved`, `resolved_by` set from
the event and `resolved_at` set to the time read at the event, all its other
fields kept, while an alert with another `_id` is unchanged; if no alert has
`_id = x` the list is unchanged. -/
theorem resolution_event_marks_in_place (clock : Nat → String) (x : String)
    (rb : Option String) (L : List Alert) :
    (onAlertResolved clock x rb L).length = L.length
    ∧ (∀ k a, L[k]? = some a →
        ∃ b, (onAlertResolved clock x rb L)[k]? = some b
          ∧ (a._id = x →
              b.status = "resolved" ∧ b.resolved_by = rb ∧ b.resolved_at = some (clock k)
              ∧ b._id = a._id ∧ b.machine_id = a.machine_id ∧ b.message = a.message
              ∧ b.sensor_type = a.sensor_type ∧ b.risk_level = a.risk_level
              ∧ b.timestamp = a.timestamp ∧ b.suggestions = a.suggestions)
          ∧ (a._id ≠ x → b = a))
    ∧ ((∀ a ∈ L, a._id ≠ x) → onAlertResolved clock x rb L = L) := by
  refine ⟨markResolvedFrom_length clock x rb L 0, ?_, markResolvedFrom_of_absent clock x rb L 0⟩
  intro k a hk
  unfold onAlertResolved
  rw [markResolvedFrom_getElem?, hk]
  by_cases hax : a._id = x
  · simp [hax]
  · simp [hax]

/-! ## Notification Presenter: the queue as a stable insertion -/

theorem orderedInsert_of_all_le (x : Alert) (l : List Alert)
    (h : ∀ b ∈ l, b.risk_level ≤ x.risk_level) :
    l.orderedInsert (fun a b => b.risk_level ≤ a.risk_level) x = x :: l := by
  cases l with
  | nil => rfl
  | cons b rest => simp [List.orderedInsert, h b (List.mem_cons_self _ _)]

theorem mem_insertAfterNotLower (a b : Alert) (q : List Alert) :
    b ∈ insertAfterNotLower a q ↔ b = a ∨ b ∈ q := by
  induction q with
  | nil => simp [insertAfterNotLower]
  | cons c rest ih =>
    unfold insertAfterNotLower
    split
    · simp only [List.mem_cons, ih]; tauto
    · simp only [List.mem_cons]

theorem insertAfterNotLower_of_all_lt (a : Alert) (q : List Alert)
    (h : ∀ b ∈ q, b.risk_level < a.risk_level) : insertAfterNotLower a q = a :: q := by
  cases q with
  | nil => rfl
  | cons c rest =>
    have hc : ¬ a.risk_level ≤ c.risk_level := not_le.mpr (h c (List.mem_cons_self _ _))
    simp [insertAfterNotLower, hc]

theorem sortByRiskDesc_append_singleton (a : Alert) (q : List Alert) (hq : DescByRisk q) :
    sortByRiskDesc (q ++ [a]) = insertAfterNotLower a q := by
  induction q with
  | nil => rfl
  | cons x rest ih =>
    have hrest : DescByRisk rest := (List.pairwise_cons.mp hq).2
    have hx : ∀ b ∈ rest, b.risk_level ≤ x.risk_level := (List.pairwise_cons.mp hq).1
    have hstep : sortByRiskDesc (x :: rest ++ [a])
        = (insertAfterNotLower a rest).orderedInsert (fun a b => b.risk_level ≤ a.risk_level) x := by
      have := ih hrest
      unfold sortByRiskDesc at this ⊢
      rw [List.cons_append]
      show List.orderedInsert _ x (List.insertionSort _ (rest ++ [a])) = _
      rw [this]
    rw [hstep]
    by_cases hax : a.risk_level ≤ x.risk_level
    · have hall : ∀ b ∈ insertAfterNotLower a rest, b.risk_level ≤ x.risk_level := by
        intro b hb
        rcases (mem_insertAfterNotLower a b rest).mp hb with h | h
        · rw [h]; exact hax
        · exact hx b h
      rw [orderedInsert_of_all_le x _ hall]
      simp [insertAfterNotLower, hax]
    · have hlt : ∀ b ∈ rest, b.risk_level < a.risk_level := fun b hb =>
        lt_of_le_of_lt (hx b hb) (not_le.mp hax)
      rw [insertAfterNotLower_of_all_lt a rest hlt]
      simp only [List.orderedInsert, hax, if_false, orderedInsert_of_all_le x rest hx]
      simp [insertAfterNotLower, hax]

theorem insertAfterNotLower_desc (a : Alert) (q : List Alert) (hq : DescByRisk q) :
    DescByRisk (insertAfterNotLower a q) := by
  induction q with
  | nil => simp [insertAfterNotLower, DescByRisk]
  | cons x rest ih =>
    have hrest : DescByRisk rest := (List.pairwise_cons.mp hq).2
    have hx : ∀ b ∈ rest, b.risk_level ≤ x.risk_level := (List.pairwise_cons.mp hq).1
    unfold insertAfterNotLower
    split
    · rename_i hax
      refine List.pairwise_cons.mpr ⟨?_, ih hrest⟩
      intro b hb
      rcases (mem_insertAfterNotLower a b rest).mp hb with h | h
      · rw [h]; exact hax
      · exact hx b h
    · rename_i hax
      refine List.pairwise_cons.mpr ⟨?_, hq⟩
      intro b hb
      have hxa : x.risk_level ≤ a.risk_level := le_of_lt (not_le.mp hax)
      rcases List.mem_cons.mp hb with h | h
      · rw [h]; exact hxa
      · exact le_trans (hx b h) hxa

theorem insertAfterNotLower_perm (a : Alert) (q : List Alert) :
    (insertAfterNotLower a q).Perm (q ++ [a]) := by
  induction q with
  | nil => exact List.Perm.refl _
  | cons x rest ih =>
    unfold insertAfterNotLower
    split
    · exact List.Perm.cons x ih
    · exact (List.perm_append_singleton a (x :: rest)).symm

theorem insertAfterNotLower_filter (a : Alert) (q : List Alert) (hq : DescByRisk q) (r : Int) :
    (insertAfterNotLower a q).filter (fun b => b.risk_level = r)
      = (q ++ [a]).filter (fun b => b.risk_level = r) := by
  induction q with
  | nil => rfl
  | cons x rest ih =>
    have hrest : DescByRisk rest := (List.pairwise_cons.mp hq).2
    have hx : ∀ b ∈ rest, b.risk_level ≤ x.risk_level := (List.pairwise_cons.mp hq).1
    unfold insertAfterNotLower
    split
    · simp only [List.cons_append, List.filter_cons, ih hrest]
    · rename_i hax
      have hxa : x.risk_level < a.risk_level := not_le.mp hax
      by_cases har : a.risk_level = r
      · have hnone : (x :: rest).filter (fun b => b.risk_level = r) = [] := by
          rw [List.filter_eq_nil_iff]
          intro b hb
          have hb_le : b.risk_level ≤ x.risk_level := by
            rcases List.mem_cons.mp hb with h | h
            · rw [h]
            · exact hx b h
          have : b.risk_level ≠ r := by omega
          simpa using this
        rw [List.filter_append, hnone]
        simp [List.filter_cons, har, hnone]
      · rw [List.filter_append]
        simp [List.filter_cons, har]

theorem stableQueue_snoc (as : List Alert) (a : Alert) :
    stableQueue (as ++ [a]) = insertAfterNotLower a (stableQueue as) := by
  simp [stableQueue, List.foldl_append]

theorem stableQueue_desc (as : List Alert) : DescByRisk (stableQueue as) := by
  induction as using List.reverseRecOn with
  | nil => simp [stableQueue, DescByRisk]
  | append_singleton as a ih =>
    rw [stableQueue_snoc]
    exact insertAfterNotLower_desc a _ ih

theorem stableQueue_perm (as : List Alert) : (stableQueue as).Perm as := by
  induction as using List.reverseRecOn with
  | nil => exact List.Perm.refl _
  | append_singleton as a ih =>
    rw [stableQueue_snoc]
    exact (insertAfterNotLower_perm a _).trans (List.Perm.append_right [a] ih)

theorem stableQueue_filter (as : List Alert) (r : Int) :
    (stableQueue as).filter (fun b => b.risk_level = r)
      = as.filter (fun b => b.risk_level = r) := by
  induction as using List.reverseRecOn with
  | nil => rfl
  | append_singleton as a ih =>
    rw [stableQueue_snoc, insertAfterNotLower_filter a _ (stableQueue_desc as) r,
      List.filter_append, List.filter_append, ih]

theorem arrivals_snoc (s : PresenterState) (as : List Alert) (a : Alert) :
    arrivals s (as ++ [a]) = onNewAlert (arrivals s as) a := by
  simp [arrivals, List.foldl_append]

theorem arrivals_behind_shown (X : Alert) (as : List Alert)
    (h : ∀ a ∈ as, a.risk_level ≤ X.risk_level) :
    arrivals (onNewAlert PresenterState.initial X) as =
      { openAlert := true, currentAlert := some X
        alertQueue := X :: stableQueue as, expanded := false } := by
  induction as using List.reverseRecOn with
  | nil => rfl
  | append_singleton as a ih =>
    have has : ∀ b ∈ as, b.risk_level ≤ X.risk_level := fun b hb =>
      h b (List.mem_append_left _ hb)
    have ha : a.risk_level ≤ X.risk_level := h a (by simp)
    have hdesc : DescByRisk (X :: stableQueue as) :=
      List.pairwise_cons.mpr
        ⟨fun b hb => has b ((stableQueue_perm as).mem_iff.mp hb), stableQueue_desc as⟩
    rw [arrivals_snoc, ih has]
    simp only [onNewAlert, Bool.not_true, Bool.false_eq_true, if_false]
    rw [sortByRiskDesc_append_singleton a _ hdesc, stableQueue_snoc]
    simp [insertAfterNotLower, ha]

theorem presentedOnDrain_of_head (q : List Alert) :
    ∀ (s : PresenterState) (X : Alert) (fuel : Nat), s.alertQueue = X :: q →
      q.length + 1 ≤ fuel → presentedOnDrain fuel s = q := by
  induction q with
  | nil =>
    intro s X fuel hs hfuel
    obtain ⟨n, rfl⟩ : ∃ n, fuel = n + 1 := ⟨fuel - 1, by simp at hfuel; omega⟩
    simp [presentedOnDrain, handleCloseAlert, requestClose, fireCloseTimer, hs]
  | cons y rest ih =>
    intro s X fuel hs hfuel
    obtain ⟨n, rfl⟩ : ∃ n, fuel = n + 1 := ⟨fuel - 1, by simp at hfuel; omega⟩
    have hn : rest.length + 1 ≤ n := by simp at hfuel; omega
    have hnext : handleCloseAlert s none =
        { openAlert := true, currentAlert := some y, alertQueue := y :: rest, expanded := false } := by
      simp [handleCloseAlert, requestClose, fireCloseTimer, hs]
    simp only [presentedOnDrain, hnext]
    rw [ih _ y n rfl hn]

/-- Priority ordering when the displayed alert is not outranked: if an alert
`X` is on display and every arriving alert has a risk level at most that of
`X`, then `X` stays on display during the arrivals and repeated dismissal,
with any fuel of at least the number of arrivals plus one, presents exactly the
arrived alerts (a permutation of them), in non-increasing risk order, alerts
of equal risk in arrival order. -/
theorem presenter_priority_when_not_outranked (X : Alert) (as : List Alert) (fuel : Nat)
    (h : ∀ a ∈ as, a.risk_level ≤ X.risk_level) (hfuel : as.length + 1 ≤ fuel) :
    (arrivals (onNewAlert PresenterState.initial X) as).currentAlert = some X
    ∧ (arrivals (onNewAlert PresenterState.initial X) as).openAlert = true
    ∧ (presentedOnDrain fuel (arrivals (onNewAlert PresenterState.initial X) as)).Perm as
    ∧ DescByRisk (presentedOnDrain fuel (arrivals (onNewAlert PresenterState.initial X) as))
    ∧ ∀ r : Int,
        (presentedOnDrain fuel (arrivals (onNewAlert PresenterState.initial X) as)).filter
            (fun b => b.risk_level = r)
          = as.filter (fun b => b.risk_level = r) := by
  have hlen : (stableQueue as).length + 1 ≤ fuel := by
    rw [(stableQueue_perm as).length_eq]; exact hfuel
  have hdrain : presentedOnDrain fuel (arrivals (onNewAlert PresenterState.initial X) as)
      = stableQueue as :=
    presentedOnDrain_of_head (stableQueue as) _ X fuel
      (by rw [arrivals_behind_shown X as h]) hlen
  rw [hdrain, arrivals_behind_shown X as h]
  exact ⟨rfl, rfl, stableQueue_perm as, stableQueue_desc as, stableQueue_filter as⟩

/-- The specification's example: with an alert of risk 100 on display, arrivals
of risk 30, 90, 60 are presented as 90, 60, 30. -/
theorem presenter_priority_when_not_outranked_witness :
    (arrivals (onNewAlert PresenterState.initial (mkAlert "top" 100))
        [mkAlert "a" 30, mkAlert "b" 90, mkAlert "c" 60]).currentAlert = some (mkAlert "top" 100)
    ∧ (arrivals (onNewAlert PresenterState.initial (mkAlert "top" 100))
        [mkAlert "a" 30, mkAlert "b" 90, mkAlert "c" 60]).openAlert = true
    ∧ (presentedOnDrain 4 (arrivals (onNewAlert PresenterState.initial (mkAlert "top" 100))
        [mkAlert "a" 30, mkAlert "b" 90, mkAlert "c" 60])).Perm
          [mkAlert "a" 30, mkAlert "b" 90, mkAlert "c" 60]
    ∧ DescByRisk (presentedOnDrain 4
        (arrivals (onNewAlert PresenterState.initial (mkAlert "top" 100))
          [mkAlert "a" 30, mkAlert "b" 90, mkAlert "c" 60]))
    ∧ ∀ r : Int,
        (presentedOnDrain 4 (arrivals (onNewAlert PresenterState.initial (mkAlert "top" 100))
            [mkAlert "a" 30, mkAlert "b" 90, mkAlert "c" 60])).filter
            (fun b => b.risk_level = r)
          = [mkAlert "a" 30, mkAlert "b" 90, mkAlert "c" 60].filter
              (fun b => b.risk_level = r) :=
  presenter_priority_when_not_outranked (mkAlert "top" 100)
    [mkAlert "a" 30, mkAlert "b" 90, mkAlert "c" 60] 4 (by decide) (by decide)

/-- Dismissal when the displayed alert heads the queue: for every Presenter
state and reason other than `clickaway`, `handleCloseAlert` drops the first
queue entry; with more than one entry queued the first remaining entry is
displayed with `expanded = false` and `openAlert = true`, otherwise the state
is Idle; and when the displayed alert is the queue head and the queue holds
no duplicate, the displayed alert is no longer in `alertQueue`. -/
theorem dismiss_removes_displayed_head (s : PresenterState) (reason : Option String)
    (hr : reason ≠ some "clickaway") :
    (1 < s.alertQueue.length →
        (handleCloseAlert s reason).alertQueue = s.alertQueue.tail
        ∧ (handleCloseAlert s reason).currentAlert = s.alertQueue.tail.head?
        ∧ (handleCloseAlert s reason).currentAlert ≠ none
        ∧ (handleCloseAlert s reason).expanded = false
        ∧ (handleCloseAlert s reason).openAlert = true)
    ∧ (s.alertQueue.length ≤ 1 →
        (handleCloseAlert s reason).alertQueue = []
        ∧ (handleCloseAlert s reason).currentAlert = none
        ∧ (handleCloseAlert s reason).openAlert = false)
    ∧ (∀ a, s.currentAlert = some a → s.alertQueue.head? = some a → s.alertQueue.Nodup →
        a ∉ (handleCloseAlert s reason).alertQueue) := by
  refine ⟨?_, ?_, ?_⟩
  · intro hq
    rw [handleCloseAlert_next s reason hr hq]
    refine ⟨by simp, by simp, ?_, rfl, rfl⟩
    cases hl : s.alertQueue with
    | nil => simp [hl] at hq
    | cons x rest =>
      cases rest with
      | nil => simp [hl] at hq
      | cons y rest => simp
  · intro hq
    rw [handleCloseAlert_idle s reason hr hq]
    exact ⟨rfl, rfl, rfl⟩
  · intro a _ hhead hnodup
    cases hl : s.alertQueue with
    | nil => simp [hl] at hhead
    | cons x rest =>
      rw [hl] at hhead hnodup
      have hxa : x = a := by simpa using hhead
      have hnot : a ∉ rest := hxa ▸ (List.nodup_cons.mp hnodup).1
      by_cases hq : 1 < s.alertQueue.length
      · rw [handleCloseAlert_next s reason hr hq, hl]
        simpa using hnot
      · rw [handleCloseAlert_idle s reason hr (by omega)]
        simp

/-- Dismissal of `top` (risk 100), displayed at the head of `[top, b]`. -/
theorem dismiss_removes_displayed_head_witness :
    (1 < (onNewAlert (onNewAlert PresenterState.initial (mkAlert "top" 100))
            (mkAlert "b" 90)).alertQueue.length)
    ∧ (handleCloseAlert (onNewAlert (onNewAlert PresenterState.initial (mkAlert "top" 100))
            (mkAlert "b" 90)) none).currentAlert = some (mkAlert "b" 90)
    ∧ mkAlert "top" 100 ∉
        (handleCloseAlert (onNewAlert (onNewAlert PresenterState.initial (mkAlert "top" 100))
            (mkAlert "b" 90)) none).alertQueue :=
  ⟨by decide, by decide,
    (dismiss_removes_displayed_head
      (onNewAlert (onNewAlert PresenterState.initial (mkAlert "top" 100)) (mkAlert "b" 90))
      none (by decide)).2.2 (mkAlert "top" 100) (by decide) (by decide) (by decide)⟩

/-! ## Notification Presenter: reachable states -/

theorem presenterRun_snoc (events : List PresenterEvent) (e : PresenterEvent) :
    presenterRun (events ++ [e]) = presenterStep (presenterRun events) e := by
  simp [presenterRun, List.foldl_append]

theorem arrivalLog_append (xs ys : List PresenterEvent) :
    arrivalLog (xs ++ ys) = arrivalLog xs ++ arrivalLog ys := by
  induction xs with
  | nil => rfl
  | cons e rest ih => cases e <;> simp [arrivalLog, ih]

theorem filter_tail_suffix (q : List Alert) (r : Int) :
    (q.drop 1).filter (fun b => b.risk_level = r) <:+ q.filter (fun b => b.risk_level = r) := by
  cases q with
  | nil => exact List.suffix_refl _
  | cons x rest =>
    simp only [List.drop_succ_cons, List.drop_zero, List.filter_cons]
    split
    · exact List.suffix_cons _ _
    · exact List.suffix_refl _

theorem suffix_append_right {l₁ l₂ : List Alert} (t : List Alert) (h : l₁ <:+ l₂) :
    l₁ ++ t <:+ l₂ ++ t := by
  obtain ⟨p, hp⟩ := h
  exact ⟨p, by rw [← hp, List.append_assoc]⟩

/-- C14: in every Presenter state reached from the initial state by any
sequence of `new_alert` arrivals, dismissals (any reason) and detail toggles,
`alertQueue` is in non-increasing `risk_level` order, and for every risk level
the queued alerts of that level are a final segment of the arrivals of that
level, in arrival order: alerts of equal risk are queued in the order they
arrived. -/
theorem queue_order_invariant (events : List PresenterEvent) :
    DescByRisk (presenterRun events).alertQueue
    ∧ ∀ r : Int,
        (presenterRun events).alertQueue.filter (fun b => b.risk_level = r)
          <:+ (arrivalLog events).filter (fun b => b.risk_level = r) := by
  induction events using List.reverseRecOn with
  | nil => exact ⟨by simp [presenterRun, PresenterState.initial, DescByRisk], fun r => by
      simp [presenterRun, PresenterState.initial, arrivalLog]⟩
  | append_singleton events e ih =>
    obtain ⟨hdesc, hstable⟩ := ih
    rw [presenterRun_snoc, arrivalLog_append]
    cases e with
    | newAlert a =>
      have hq : (onNewAlert (presenterRun events) a).alertQueue
          = insertAfterNotLower a (presenterRun events).alertQueue :=
        sortByRiskDesc_append_singleton a _ hdesc
      refine ⟨?_, fun r => ?_⟩
      · show DescByRisk (onNewAlert (presenterRun events) a).alertQueue
        rw [hq]
        exact insertAfterNotLower_desc a _ hdesc
      · show (onNewAlert (presenterRun events) a).alertQueue.filter _ <:+ _
        rw [hq, insertAfterNotLower_filter a _ hdesc r, List.filter_append, List.filter_append]
        exact suffix_append_right _ (hstable r)
    | close reason =>
      have hlog : arrivalLog [PresenterEvent.close reason] = [] := rfl
      rw [hlog, List.append_nil]
      by_cases hr : reason = some "clickaway"
      · subst hr
        show DescByRisk (handleCloseAlert _ _).alertQueue ∧ _
        rw [show presenterStep (presenterRun events) (.close (some "clickaway"))
          = presenterRun events from handleCloseAlert_clickaway _]
        exact ⟨hdesc, hstable⟩
      · by_cases hlen : 1 < (presenterRun events).alertQueue.length
        · rw [show presenterStep (presenterRun events) (.close reason) = _ from
            handleCloseAlert_next _ reason hr hlen]
          refine ⟨?_, fun r => (filter_tail_suffix _ r).trans (hstable r)⟩
          exact List.Pairwise.sublist (List.drop_sublist 1 _) hdesc
        · rw [show presenterStep (presenterRun events) (.close reason) = _ from
            handleCloseAlert_idle _ reason hr (by omega)]
          exact ⟨by simp [DescByRisk], fun r => by simp⟩
    | toggle =>
      have hlog : arrivalLog [PresenterEvent.toggle] = [] := rfl
      rw [hlog, List.append_nil]
      exact ⟨hdesc, hstable⟩

/-- C15: `handleCloseAlert` invoked in the Idle state (`alertQueue` empty,
`currentAlert` null, `openAlert` false), with any reason, leaves the Presenter
state unchanged, hence Idle. -/
theorem dismiss_idle_noop (s : PresenterState) (reason : Option String)
    (hq : s.alertQueue = []) (hc : s.currentAlert = none) (ho : s.openAlert = false) :
    handleCloseAlert s reason = s
    ∧ (handleCloseAlert s reason).alertQueue = []
    ∧ (handleCloseAlert s reason).currentAlert = none
    ∧ (handleCloseAlert s reason).openAlert = false := by
  have hs : handleCloseAlert s reason = s := by
    by_cases hr : reason = some "clickaway"
    · subst hr; exact handleCloseAlert_clickaway s
    · rw [handleCloseAlert_idle s reason hr (by simp [hq])]
      cases s
      simp_all
  rw [hs]
  exact ⟨rfl, hq, hc, ho⟩

/-- C15, witness: a timeout close in the initial (Idle) state. -/
theorem dismiss_idle_noop_witness :
    handleCloseAlert PresenterState.initial (some "timeout") = PresenterState.initial
    ∧ (handleCloseAlert PresenterState.initial (some "timeout")).alertQueue = []
    ∧ (handleCloseAlert PresenterState.initial (some "timeout")).currentAlert = none
    ∧ (handleCloseAlert PresenterState.initial (some "timeout")).openAlert = false :=
  dismiss_idle_noop PresenterState.initial (some "timeout") rfl rfl rfl

/-- C16, counterexample: with an alert on display and its details expanded
(auto-hide disabled), the arrival of a `new_alert` resets `expanded` to false,
which re-enables the 12000 ms auto-hide. -/
theorem new_alert_collapses_expanded :
    expandedShowing.openAlert = true
    ∧ expandedShowing.expanded = true
    ∧ autoHideDuration expandedShowing = none
    ∧ ¬ ((onNewAlert expandedShowing (mkAlert "b" 30)).expanded = true)
    ∧ autoHideDuration (onNewAlert expandedShowing (mkAlert "b" 30)) = some 12000 := by
  decide

/-- C16, amended: in every Presenter state the auto-hide duration is disabled
exactly when `expanded` is true and is 12000 ms exactly when `expanded` is
false; `toggleDetails` flips `expanded`; a close with reason `clickaway`
leaves `expanded` (and the whole state) unchanged; the arrival of a
`new_alert` always sets `expanded` to false, so the auto-hide is 12000 ms
again, and it does not change the alert on display while one is open. -/
theorem expanded_suspends_auto_hide (s : PresenterState) (alert : Alert) :
    (autoHideDuration s = none ↔ s.expanded = true)
    ∧ (autoHideDuration s = some 12000 ↔ s.expanded = false)
    ∧ (toggleDetails s).expanded = !s.expanded
    ∧ handleCloseAlert s (some "clickaway") = s
    ∧ (onNewAlert s alert).expanded = false
    ∧ autoHideDuration (onNewAlert s alert) = some 12000
    ∧ (s.openAlert = true → (onNewAlert s alert).currentAlert = s.currentAlert) := by
  refine ⟨?_, ?_, rfl, handleCloseAlert_clickaway s, rfl, rfl, ?_⟩
  · cases h : s.expanded <;> simp [autoHideDuration, h]
  · cases h : s.expanded <;> simp [autoHideDuration, h]
  · intro ho
    simp [onNewAlert, ho]

/-! ## Alert Aggregator: refresh and delete -/

/-- C11: for every prior state `P` and every array response `D`, with a token
present, after `fetchAlerts()` the alert state is exactly `D` (also through
`api.alerts.getAll`), whatever `P` was; an alert prepended by a live event and
absent from `D` is no longer in the state; `loading` is false and no error is
recorded. -/
theorem refresh_replaces_wholesale (token : Option String) (P : AggregatorState)
    (D : List Alert) (htok : tokenPresent token = true) :
    (fetchAlerts token (.resolved (.array D)) P).alerts = D
    ∧ (fetchAlerts token (apiAlertsGetAll (.resolved (.array D))) P).alerts = D
    ∧ (∀ P' : AggregatorState,
        fetchAlerts token (.resolved (.array D)) P' = fetchAlerts token (.resolved (.array D)) P)
    ∧ (∀ a, a ∉ D →
        a ∉ (fetchAlerts token (.resolved (.array D))
              { P with alerts := onNewAlertEvent P.alerts a }).alerts)
    ∧ (fetchAlerts token (.resolved (.array D)) P).loading = false
    ∧ (fetchAlerts token (.resolved (.array D)) P).error = none := by
  simp [fetchAlerts, apiAlertsGetAll, htok]

/-- C11, witness: a live alert `n1` prepended to the purge scenario, then a
refresh answering with the purge scenario alone. -/
theorem refresh_replaces_wholesale_witness :
    (fetchAlerts (some "tok") (.resolved (.array purgeScenario))
        { emptyAggregator with alerts := [raceAlert] }).alerts = purgeScenario
    ∧ raceAlert ∉ (fetchAlerts (some "tok") (.resolved (.array purgeScenario))
        { emptyAggregator with
          alerts := onNewAlertEvent emptyAggregator.alerts raceAlert }).alerts :=
  ⟨(refresh_replaces_wholesale (some "tok") { emptyAggregator with alerts := [raceAlert] }
      purgeScenario (by decide)).1,
   (refresh_replaces_wholesale (some "tok") emptyAggregator purgeScenario
      (by decide)).2.2.2.1 raceAlert (by decide)⟩

/-- C12: for every prior state, with a token present, when the REST
collaborator answers `fetchAlerts()` with a payload that is not an array
(falsy or not), the alert state afterwards is the empty list, the call
returns without throwing, no error is recorded and `loading` ends false. -/
theorem fetch_non_array_gives_empty (token : Option String) (P : AggregatorState)
    (payload : ApiPayload) (htok : tokenPresent token = true)
    (hshape : ∀ D, payload ≠ .array D) :
    (fetchAlerts token (apiAlertsGetAll (.resolved payload)) P).alerts = []
    ∧ fetchAlertsCompletion token (apiAlertsGetAll (.resolved payload)) = .returned ()
    ∧ (fetchAlerts token (apiAlertsGetAll (.resolved payload)) P).error = none
    ∧ (fetchAlerts token (apiAlertsGetAll (.resolved payload)) P).loading = false := by
  cases payload with
  | array D => exact absurd rfl (hshape D)
  | falsy => simp [fetchAlerts, fetchAlertsCompletion, apiAlertsGetAll, htok]
  | other => simp [fetchAlerts, fetchAlertsCompletion, apiAlertsGetAll, htok]

/-- C12, witness: an object payload received while the purge scenario is the
alert state. -/
theorem fetch_non_array_gives_empty_witness :
    (fetchAlerts (some "tok") (apiAlertsGetAll (.resolved .other))
        { emptyAggregator with alerts := purgeScenario }).alerts = []
    ∧ fetchAlertsCompletion (some "tok") (apiAlertsGetAll (.resolved .other)) = .returned ()
    ∧ (fetchAlerts (some "tok") (apiAlertsGetAll (.resolved .other))
        { emptyAggregator with alerts := purgeScenario }).error = none
    ∧ (fetchAlerts (some "tok") (apiAlertsGetAll (.resolved .other))
        { emptyAggregator with alerts := purgeScenario }).loading = false :=
  fetch_non_array_gives_empty (some "tok") { emptyAggregator with alerts := purgeScenario }
    .other (by decide) (by intro D h; cases h)

theorem handleDelete_alerts (response : RestResult Unit) (alerts : List Alert)
    (dialog : ConfirmDialog) :
    handleDelete response alerts dialog
      = (.returned (), alerts, { isOpen := false, alertId := none }) := by
  unfold handleDelete
  cases dialog.alertId with
  | none => rfl
  | some id => by_cases h : id = "" <;> simp [h, providerDeleteAlert]

theorem dialogStep_initial (alerts : List Alert) (e : DialogEvent) :
    dialogStep (alerts, ConfirmDialog.initial) e = (alerts, ConfirmDialog.initial) := by
  cases e with
  | dismiss => rfl
  | confirmDelete response => simp [dialogStep, handleDelete_alerts, ConfirmDialog.initial]

/-- C13, counterexample: the context value carries no `deleteAlert`, and with
alert `n1` in the Aggregator state, `handleDelete` run with
`confirmDialog.alertId = n1` and a REST delete that would succeed leaves the
state as it was: it is not the case that no alert with `_id = n1` remains. -/
theorem handleDelete_keeps_alert :
    providerDeleteAlert.isSome = false
    ∧ (∃ a ∈ [raceAlert], a._id = "n1")
    ∧ ¬ (∀ a ∈ (handleDelete (.resolved ()) [raceAlert]
            { isOpen := true, alertId := some "n1" }).2.1, a._id ≠ "n1") := by
  decide

/-- C13, amended: the Alert Aggregator offers no delete operation (the
context value has no `deleteAlert`); for every alert state, dialog state and
REST outcome, `handleDelete` returns normally, leaves the Aggregator's alerts
as they were (every alert id present before is present after) and resets the
dialog to closed with no alert id; and from the initial dialog, through any
sequence of the wired dialog events (close, cancel, delete), the dialog never
opens, never holds an alert id, and the alerts never change. -/
theorem handleDelete_never_changes_alerts (response : RestResult Unit) (alerts : List Alert)
    (dialog : ConfirmDialog) (events : List DialogEvent) :
    providerDeleteAlert.isNone = true
    ∧ (handleDelete response alerts dialog).1 = .returned ()
    ∧ (handleDelete response alerts dialog).2.1 = alerts
    ∧ (∀ x, (∃ a ∈ alerts, a._id = x) →
        ∃ a ∈ (handleDelete response alerts dialog).2.1, a._id = x)
    ∧ (handleDelete response alerts dialog).2.2 = { isOpen := false, alertId := none }
    ∧ dialogRun alerts events = (alerts, { isOpen := false, alertId := none }) := by
  rw [handleDelete_alerts]
  refine ⟨rfl, rfl, rfl, fun x hx => hx, rfl, ?_⟩
  unfold dialogRun
  induction events with
  | nil => rfl
  | cons e rest ih => rw [List.foldl_cons, dialogStep_initial]; exact ih

/-! ## Event channel: the mock registry -/

theorem lookup_map_replace (l : List (String × List HandlerId)) (e : String)
    (cbs : List HandlerId) :
    (l.map (fun p => if p.1 = e then (e, cbs) else p)).lookup e
      = (l.lookup e).map (fun _ => cbs) := by
  induction l with
  | nil => rfl
  | cons p rest ih =>
    obtain ⟨k, v⟩ := p
    by_cases hk : k = e
    · subst hk
      have hf : (if (k, v).1 = k then (k, cbs) else (k, v)) = (k, cbs) := by simp
      rw [List.map_cons, hf, List.lookup_cons, List.lookup_cons]
      simp
    · have hne : (e == k) = false := by simpa using fun h => hk h.symm
      have hf : (if (k, v).1 = e then (e, cbs) else (k, v)) = (k, v) := by simp [hk]
      rw [List.map_cons, hf, List.lookup_cons, List.lookup_cons, hne]
      exact ih

theorem lookup_map_replace_other (l : List (String × List HandlerId)) (e e' : String)
    (cbs : List HandlerId) (h : e' ≠ e) :
    (l.map (fun p => if p.1 = e then (e, cbs) else p)).lookup e' = l.lookup e' := by
  induction l with
  | nil => rfl
  | cons p rest ih =>
    obtain ⟨k, v⟩ := p
    have hne : (e' == e) = false := by simpa using h
    by_cases hk : k = e
    · subst hk
      have hf : (if (k, v).1 = k then (k, cbs) else (k, v)) = (k, cbs) := by simp
      rw [List.map_cons, hf, List.lookup_cons, List.lookup_cons, hne]
      exact ih
    · have hf : (if (k, v).1 = e then (e, cbs) else (k, v)) = (k, v) := by simp [hk]
      rw [List.map_cons, hf, List.lookup_cons, List.lookup_cons, ih]

theorem lookup_append_new (l : List (String × List HandlerId)) (e : String)
    (cbs : List HandlerId) (h : l.lookup e = none) :
    (l ++ [(e, cbs)]).lookup e = some cbs := by
  induction l with
  | nil => simp [List.lookup]
  | cons p rest ih =>
    obtain ⟨k, v⟩ := p
    by_cases hk : e = k
    · subst hk; simp [List.lookup] at h
    · have hne : (e == k) = false := by simpa using hk
      simp only [List.lookup, hne] at h
      simp [List.lookup, hne, ih h]

theorem lookup_append_other (l : List (String × List HandlerId)) (e e' : String)
    (cbs : List HandlerId) (h : e' ≠ e) :
    (l ++ [(e, cbs)]).lookup e' = l.lookup e' := by
  have hne : (e' == e) = false := by simpa using h
  induction l with
  | nil => simp [List.lookup, hne]
  | cons p rest ih =>
    obtain ⟨k, v⟩ := p
    by_cases hk : e' = k
    · subst hk; simp [List.lookup]
    · have hne' : (e' == k) = false := by simpa using hk
      simp [List.lookup, hne', ih]

theorem setEntry_lookup_self (m : MockSocket) (e : String) (cbs : List HandlerId) :
    (m.setEntry e cbs).handlers.lookup e = some cbs := by
  unfold MockSocket.setEntry
  cases hl : m.handlers.lookup e with
  | none => simp [lookup_append_new _ _ _ hl]
  | some old => simp [lookup_map_replace, hl]

theorem setEntry_lookup_other (m : MockSocket) (e e' : String) (cbs : List HandlerId)
    (h : e' ≠ e) : (m.setEntry e cbs).handlers.lookup e' = m.handlers.lookup e' := by
  unfold MockSocket.setEntry
  cases hl : m.handlers.lookup e with
  | none => simp [lookup_append_other _ _ _ _ h]
  | some old => simp [lookup_map_replace_other _ _ _ _ h]

theorem setEntry_connected (m : MockSocket) (e : String) (cbs : List HandlerId) :
    (m.setEntry e cbs).connected = m.connected := rfl

theorem setEntry_entry_self (m : MockSocket) (e : String) (cbs : List HandlerId) :
    (m.setEntry e cbs).entry e = .array cbs := by
  simp [MockSocket.entry, setEntry_lookup_self]

theorem calls_deliver_nothing (ops : List SocketCall) :
    ∀ m : MockSocket, (m.calls ops).2 = [] := by
  induction ops with
  | nil => intro m; rfl
  | cons c rest ih =>
    intro m
    have hc : (m.call c).2.2 = [] := by cases c <;> rfl
    simp [MockSocket.calls, hc, ih]

/-- C17, counterexample: on a fresh mock, `on("constructor", h)` and
`off("toString", h)` throw (the entry read from the object literal
`this.handlers` is the inherited `Object.prototype` member, which has no
`push` or `filter`), and so does `subscribe("constructor", h)` of the socket
context on the mock: `on` and `off` do not return normally for every event
name. -/
theorem mock_on_inherited_event_throws :
    (MockSocket.fresh.on "constructor" 1).1 = .threw
    ∧ (MockSocket.fresh.off "toString" 1).1 = .threw
    ∧ (subscribe (some MockSocket.fresh) "constructor" 1).1.didThrow = true
    ∧ ¬ ((MockSocket.fresh.on "constructor" 1).1 = .returned ())
    ∧ ¬ ((MockSocket.fresh.off "toString" 1).1 = .returned ()) := by
  decide

/-- C17, amended: no sequence of `on`, `off` and `emit` calls on the mock
makes any handler invocation; `emit` returns normally and leaves the mock
unchanged for every event and payload; `on` and `off` return normally for
every event name that is not a property name inherited from
`Object.prototype`, in particular for `new_alert` and `alert_resolved`, the
names the application subscribes to, `off` leaving the mock unchanged when
the event has no entry; for an inherited name without an own entry `on` and
`off` throw; with no socket, `subscribe` and `emit` of the socket context do
nothing and `subscribe` returns an unsubscribe that does nothing. -/
theorem mock_channel_never_delivers (m : MockSocket) (ops : List SocketCall)
    (event data : String) (callback : HandlerId) :
    (m.calls ops).2 = []
    ∧ m.emit event data = (.returned (), m, [])
    ∧ (event ∉ objectPrototypeKeys →
        (m.on event callback).1 = .returned () ∧ (m.off event callback).1 = .returned ())
    ∧ ((m.on "new_alert" callback).1 = .returned ()
        ∧ (m.off "new_alert" callback).1 = .returned ()
        ∧ (m.on "alert_resolved" callback).1 = .returned ()
        ∧ (m.off "alert_resolved" callback).1 = .returned ())
    ∧ (event ∈ objectPrototypeKeys → m.handlers.lookup event = none →
        (m.on event callback).1 = .threw ∧ (m.off event callback).1 = .threw)
    ∧ (m.entry event = .undefined → m.off event callback = (.returned (), m))
    ∧ (subscribe none event callback).2 = none
    ∧ (∃ unsub, (subscribe none event callback).1 = .returned unsub
        ∧ ∀ current, unsub current = (.returned (), current))
    ∧ emit none event data = (.returned (), none, []) := by
  have hgen : ∀ ev : String, ev ∉ objectPrototypeKeys →
      (m.on ev callback).1 = .returned () ∧ (m.off ev callback).1 = .returned () := by
    intro ev hev
    have hentry : m.entry ev ≠ .inherited := by
      unfold MockSocket.entry
      cases m.handlers.lookup ev <;> simp [hev]
    unfold MockSocket.on MockSocket.off
    cases he : m.entry ev with
    | undefined => exact ⟨rfl, rfl⟩
    | array cbs => exact ⟨rfl, rfl⟩
    | inherited => exact absurd he hentry
  refine ⟨calls_deliver_nothing ops m, rfl, hgen event,
    ⟨(hgen "new_alert" (by decide)).1, (hgen "new_alert" (by decide)).2,
      (hgen "alert_resolved" (by decide)).1, (hgen "alert_resolved" (by decide)).2⟩,
    ?_, ?_, rfl, ⟨_, rfl, fun _ => rfl⟩, rfl⟩
  · intro hev hnone
    have hentry : m.entry event = .inherited := by
      simp [MockSocket.entry, hnone, hev]
    simp [MockSocket.on, MockSocket.off, hentry]
  · intro he
    simp [MockSocket.off, he]

/-- C17, witness of the amended claim on `busyMock`: nothing is delivered by
a sequence of calls, and `on`/`off` return normally for the event
`new_alert`. -/
theorem mock_channel_never_delivers_witness :
    (busyMock.calls [.on "new_alert" 4, .emit "new_alert" "payload", .off "x" 1]).2 = []
    ∧ ((busyMock.on "new_alert" 4).1 = .returned ()
        ∧ (busyMock.off "new_alert" 4).1 = .returned ()) :=
  ⟨(mock_channel_never_delivers busyMock
      [.on "new_alert" 4, .emit "new_alert" "payload", .off "x" 1] "new_alert" "" 4).1,
   (mock_channel_never_delivers busyMock [] "new_alert" "" 4).2.2.1 (by decide)⟩

/-- C18: for every mock registry `m`, event `e` and callback `h`, when
`subscribe(e, h)` returns a function `unsub` (leaving the mock as `m1`),
calling `unsub` returns normally and afterwards the handler list of `e` is the
list it had in `m` with `h` removed, every other callback kept in the same
order, and the entries of all other events and `connected` are unchanged. -/
theorem unsubscribe_deregisters_handler (m m1 : MockSocket) (e : String) (h : HandlerId)
    (unsub : Unsubscribe)
    (hsub : subscribe (some m) e h = (.returned unsub, some m1)) :
    (unsub m1).1 = .returned ()
    ∧ h ∈ m1.handlerList e
    ∧ (unsub m1).2.handlerList e = (m.handlerList e).filter (fun cb => cb ≠ h)
    ∧ h ∉ (unsub m1).2.handlerList e
    ∧ (∀ e', e' ≠ e → (unsub m1).2.handlers.lookup e' = m.handlers.lookup e')
    ∧ (∀ e', e' ≠ e → (unsub m1).2.handlerList e' = m.handlerList e')
    ∧ (unsub m1).2.connected = m.connected := by
  have key : ∀ cbs : List HandlerId, m.handlerList e = cbs →
      unsub = (fun current => current.off e h) → m1 = m.setEntry e (cbs ++ [h]) →
      (unsub m1).1 = .returned ()
      ∧ h ∈ m1.handlerList e
      ∧ (unsub m1).2.handlerList e = (m.handlerList e).filter (fun cb => cb ≠ h)
      ∧ h ∉ (unsub m1).2.handlerList e
      ∧ (∀ e', e' ≠ e → (unsub m1).2.handlers.lookup e' = m.handlers.lookup e')
      ∧ (∀ e', e' ≠ e → (unsub m1).2.handlerList e' = m.handlerList e')
      ∧ (unsub m1).2.connected = m.connected := by
    intro cbs hcbs hun hm1
    subst hun hm1
    have hoff : (m.setEntry e (cbs ++ [h])).off e h
        = (.returned (),
            (m.setEntry e (cbs ++ [h])).setEntry e
              ((cbs ++ [h]).filter (fun cb => cb != h))) := by
      simp [MockSocket.off, setEntry_entry_self]
    have hlist : ((m.setEntry e (cbs ++ [h])).setEntry e
        ((cbs ++ [h]).filter (fun cb => cb != h))).handlerList e
          = cbs.filter (fun cb => cb ≠ h) := by
      simp [MockSocket.handlerList, setEntry_lookup_self, List.filter_append, bne, BEq.beq]
    have hother : ∀ e', e' ≠ e →
        ((m.setEntry e (cbs ++ [h])).setEntry e
          ((cbs ++ [h]).filter (fun cb => cb != h))).handlers.lookup e'
          = m.handlers.lookup e' := by
      intro e' he'
      rw [setEntry_lookup_other _ _ _ _ he', setEntry_lookup_other _ _ _ _ he']
    beta_reduce
    rw [hoff]
    refine ⟨rfl, ?_, ?_, ?_, hother, ?_, rfl⟩
    · simp [MockSocket.handlerList, setEntry_lookup_self]
    · rw [hlist, hcbs]
    · rw [hlist]; simp
    · intro e' he'
      simp only [MockSocket.handlerList, hother e' he']
  unfold subscribe at hsub
  cases hentry : m.entry e with
  | undefined =>
    have hnone : m.handlers.lookup e = none := by
      unfold MockSocket.entry at hentry
      cases hl : m.handlers.lookup e with
      | none => rfl
      | some cbs => simp [hl] at hentry
    simp only [MockSocket.on, hentry, Prod.mk.injEq, Completion.returned.injEq,
      Option.some.injEq] at hsub
    exact key [] (by simp [MockSocket.handlerList, hnone]) hsub.1.symm (by simpa using hsub.2.symm)
  | array cbs =>
    have hsome : m.handlers.lookup e = some cbs := by
      unfold MockSocket.entry at hentry
      cases hl : m.handlers.lookup e with
      | none => simp [hl] at hentry; split at hentry <;> simp at hentry
      | some cbs' => simpa [hl] using hentry
    simp only [MockSocket.on, hentry, Prod.mk.injEq, Completion.returned.injEq,
      Option.some.injEq] at hsub
    exact key cbs (by simp [MockSocket.handlerList, hsome]) hsub.1.symm hsub.2.symm
  | inherited =>
    simp [MockSocket.on, hentry] at hsub

/-- C18, witness: handler 2 subscribes again to `new_alert` on `busyMock`
(handlers 1, 2) and unsubscribes: handler 1 alone is left and `sensor_update`
keeps handler 3. -/
theorem unsubscribe_deregisters_handler_witness :
    ((busyMock.setEntry "new_alert" [1, 2, 2]).off "new_alert" 2).1 = .returned ()
    ∧ ((busyMock.setEntry "new_alert" [1, 2, 2]).off "new_alert" 2).2.handlerList "new_alert"
        = [1]
    ∧ ((busyMock.setEntry "new_alert" [1, 2, 2]).off "new_alert" 2).2.handlerList
        "sensor_update" = [3] :=
  have hw := unsubscribe_deregisters_handler busyMock (busyMock.setEntry "new_alert" [1, 2, 2])
    "new_alert" 2 (fun current => current.off "new_alert" 2) rfl
  ⟨hw.1, hw.2.2.1.trans (by decide), (hw.2.2.2.2.2.1 "sensor_update" (by decide)).trans (by decide)⟩

/-! ## Session storage -/

theorem getItem_removeItem_self (s : Storage) (key : String) :
    (s.removeItem key).getItem key = none := by
  induction s with
  | nil => rfl
  | cons p rest ih =>
    obtain ⟨k, v⟩ := p
    unfold Storage.removeItem Storage.getItem at *
    by_cases hk : k = key
    · subst hk; simpa [List.filter_cons] using ih
    · have hne : (key == k) = false := by simpa using fun h => hk h.symm
      simp only [List.filter_cons, bne_iff_ne, ne_eq, hk, not_false_eq_true, if_true,
        List.lookup_cons, hne]
      simpa using ih

theorem getItem_removeItem_other (s : Storage) (key key' : String) (h : key' ≠ key) :
    (s.removeItem key).getItem key' = s.getItem key' := by
  induction s with
  | nil => rfl
  | cons p rest ih =>
    obtain ⟨k, v⟩ := p
    unfold Storage.removeItem Storage.getItem at *
    by_cases hk : k = key
    · subst hk
      have hne : (key' == k) = false := by simpa using h
      simp only [List.filter_cons, bne_self_eq_false, Bool.false_eq_true, if_false,
        List.lookup_cons, hne]
      exact ih
    · simp only [List.filter_cons, bne_iff_ne, ne_eq, hk, not_false_eq_true, if_true,
        List.lookup_cons]
      rw [ih]

/-- C19, counterexample: with `token` and `user` persisted, an `apiRequest`
answered by a 401 with a JSON error body removes `token` only, the storage
still holds the user profile `user`; and answered by a 401 announced as JSON
whose body is `null` or does not parse, it removes nothing, the storage still
holds `token` as well. -/
theorem unauthorized_keeps_user_profile :
    unauthorized.status = 401
    ∧ (apiRequest persistedSession (.resolved unauthorized)).2.getItem "token" = none
    ∧ ¬ ((apiRequest persistedSession (.resolved unauthorized)).2.getItem "user" = none)
    ∧ unauthorizedNullBody.status = 401
    ∧ ¬ ((apiRequest persistedSession (.resolved unauthorizedNullBody)).2.getItem "token" = none)
    ∧ unauthorizedUnparsableBody.status = 401
    ∧ ¬ ((apiRequest persistedSession (.resolved unauthorizedUnparsableBody)).2.getItem "token"
          = none) := by
  decide

/-- C19, amended: for every storage content and every `apiRequest` whose
response has status 401, the call rethrows the error and every key other than
`token`, the user profile `user` included, keeps its value; when the response
is not announced as JSON, or is JSON with a body other than `null`, the
storage afterwards holds no `token`; when it is announced as JSON and its
body is `null` or does not parse, the storage is left as it was, `token`
included.  `logout`, by contrast, removes both `token` and `user`. -/
theorem unauthorized_clears_token_only (storage : Storage) (r : HttpResponse)
    (hstatus : r.status = 401) :
    (apiRequest storage (.resolved r)).1 = .threw
    ∧ (∀ key, key ≠ "token" →
        (apiRequest storage (.resolved r)).2.getItem key = storage.getItem key)
    ∧ (r.jsonContentType = false ∨ r.body = .value →
        (apiRequest storage (.resolved r)).2 = storage.removeItem "token"
        ∧ (apiRequest storage (.resolved r)).2.getItem "token" = none)
    ∧ (r.jsonContentType = true ∧ r.body ≠ .value →
        (apiRequest storage (.resolved r)).2 = storage)
    ∧ (logoutStorage storage).getItem "token" = none
    ∧ (logoutStorage storage).getItem "user" = none := by
  have hok : r.ok = false := by simp [HttpResponse.ok, hstatus]
  have hclear : r.jsonContentType = false ∨ r.body = .value →
      apiRequest storage (.resolved r) = (.threw, storage.removeItem "token") := by
    intro hbody
    rcases hbody with hj | hb
    · simp [apiRequest, apiRequestTry, hj, hok, hstatus]
    · cases hj : r.jsonContentType <;> simp [apiRequest, apiRequestTry, hj, hb, hok, hstatus]
  have hkeep : r.jsonContentType = true ∧ r.body ≠ .value →
      apiRequest storage (.resolved r) = (.threw, storage) := by
    rintro ⟨hj, hb⟩
    cases hbody : r.body with
    | unparsable => simp [apiRequest, apiRequestTry, hj, hbody]
    | null => simp [apiRequest, apiRequestTry, hj, hbody, hok]
    | value => exact absurd hbody hb
  have hcases : (r.jsonContentType = false ∨ r.body = .value)
      ∨ (r.jsonContentType = true ∧ r.body ≠ .value) := by
    cases hj : r.jsonContentType
    · exact Or.inl (Or.inl rfl)
    · by_cases hb : r.body = .value
      · exact Or.inl (Or.inr hb)
      · exact Or.inr ⟨rfl, hb⟩
  refine ⟨?_, ?_, ?_, ?_, ?_, getItem_removeItem_self _ _⟩
  · rcases hcases with h | h
    · rw [hclear h]
    · rw [hkeep h]
  · intro key hkey
    rcases hcases with h | h
    · rw [hclear h]; exact getItem_removeItem_other _ _ _ hkey
    · rw [hkeep h]
  · intro h
    rw [hclear h]
    exact ⟨rfl, getItem_removeItem_self _ _⟩
  · intro h
    rw [hkeep h]
  · unfold logoutStorage
    rw [getItem_removeItem_other _ _ _ (by decide)]
    exact getItem_removeItem_self _ _

/-- C19, witness of the amended claim on the persisted session. -/
theorem unauthorized_clears_token_only_witness :
    (apiRequest persistedSession (.resolved unauthorized)).1 = .threw
    ∧ (apiRequest persistedSession (.resolved unauthorized)).2.getItem "token" = none
    ∧ (apiRequest persistedSession (.resolved unauthorized)).2.getItem "user"
        = persistedSession.getItem "user"
    ∧ (apiRequest persistedSession (.resolved unauthorizedNullBody)).2 = persistedSession :=
  have hw := unauthorized_clears_token_only persistedSession unauthorized rfl
  ⟨hw.1, (hw.2.2.1 (Or.inr rfl)).2, hw.2.1 "user" (by decide),
    (unauthorized_clears_token_only persistedSession unauthorizedNullBody rfl).2.2.2.1
      ⟨rfl, by decide⟩⟩

/-! ## Demo forecast: risk bounds -/

theorem mathRound_nonneg (x : ℚ) (h : 0 ≤ x) : 0 ≤ mathRound x := by
  unfold mathRound
  exact Int.floor_nonneg.mpr (by linarith)

theorem mathRound_le (x : ℚ) (c : Int) (h : x ≤ c) : mathRound x ≤ c := by
  unfold mathRound
  have hlt : ⌊x + 1 / 2⌋ < c + 1 := by
    rw [Int.floor_lt]
    push_cast
    linarith
  omega

theorem capRisk_le (x ceiling : ℚ) : capRisk x ceiling ≤ ceiling := by
  unfold capRisk
  split
  · exact le_refl _
  · linarith

theorem capRisk_nonneg (x ceiling : ℚ) (hx : 0 ≤ x) (hc : 0 ≤ ceiling) :
    0 ≤ capRisk x ceiling := by
  unfold capRisk
  split <;> assumption

theorem alphaValues_risk_nonneg (sensor_type : String) (current_value : ℚ)
    (updateCounter : Nat) (progression : ℚ) (hp : 0 ≤ progression) :
    0 ≤ (alphaValues sensor_type current_value updateCounter progression).1 := by
  have h2 : (0 : ℚ) ≤ ((updateCounter % 2 : Nat) : ℚ) := Nat.cast_nonneg _
  have h3 : (0 : ℚ) ≤ ((updateCounter % 3 : Nat) : ℚ) := Nat.cast_nonneg _
  have h4 : (0 : ℚ) ≤ ((updateCounter % 4 : Nat) : ℚ) := Nat.cast_nonneg _
  unfold alphaValues
  split_ifs
  · show (0 : ℚ) ≤ 10 + ((updateCounter % 3 : Nat) : ℚ) + progression / 10
    linarith [div_nonneg hp (by norm_num : (0 : ℚ) ≤ 10)]
  · show (0 : ℚ) ≤ 5 + ((updateCounter % 2 : Nat) : ℚ) + progression / 15
    linarith [div_nonneg hp (by norm_num : (0 : ℚ) ≤ 15)]
  · show (0 : ℚ) ≤ 8 + ((updateCounter % 4 : Nat) : ℚ) + progression / 12
    linarith [div_nonneg hp (by norm_num : (0 : ℚ) ≤ 12)]
  · exact le_refl _

theorem betaValues_risk_bounds (sensor_type : String) (current_value : ℚ)
    (updateCounter : Nat) (progression : ℚ) (hp : 0 ≤ progression) :
    0 ≤ (betaValues sensor_type current_value updateCounter progression).1
    ∧ (betaValues sensor_type current_value updateCounter progression).1 ≤ 75 := by
  have hc : (0 : ℚ) ≤ (updateCounter : ℚ) := Nat.cast_nonneg _
  have h4 : (0 : ℚ) ≤ ((updateCounter % 4 : Nat) : ℚ) := Nat.cast_nonneg _
  have h5 : (0 : ℚ) ≤ ((updateCounter % 5 : Nat) : ℚ) := Nat.cast_nonneg _
  unfold betaValues
  split_ifs <;> dsimp only <;>
    first
    | exact ⟨capRisk_nonneg _ _ (by norm_num; linarith) (by norm_num),
        le_trans (capRisk_le _ _) (by norm_num)⟩
    | norm_num

theorem gammaValues_risk_bounds (sensor_type : String) (current_value : ℚ)
    (updateCounter : Nat) (progression : ℚ) (hp : 0 ≤ progression) :
    0 ≤ (gammaValues sensor_type current_value updateCounter progression).1
    ∧ (gammaValues sensor_type current_value updateCounter progression).1 ≤ 95 := by
  have hc : (0 : ℚ) ≤ (updateCounter : ℚ) := Nat.cast_nonneg _
  unfold gammaValues
  split_ifs <;> dsimp only <;>
    first
    | exact ⟨capRisk_nonneg _ _ (by norm_num; linarith) (by norm_num),
        le_trans (capRisk_le _ _) (by norm_num)⟩
    | norm_num

theorem deltaValues_risk_bounds (sensor_type : String) (current_value : ℚ)
    (updateCounter : Nat) (progression : ℚ) (hp : 0 ≤ progression) :
    0 ≤ (deltaValues sensor_type current_value updateCounter progression).1
    ∧ (deltaValues sensor_type current_value updateCounter progression).1 ≤ 99 := by
  have hc : (0 : ℚ) ≤ (updateCounter : ℚ) := Nat.cast_nonneg _
  unfold deltaValues
  split_ifs <;> dsimp only <;>
    first
    | exact ⟨capRisk_nonneg _ _ (by norm_num; linarith) (by norm_num),
        le_trans (capRisk_le _ _) (by norm_num)⟩
    | norm_num

theorem profileValues_risk_nonneg (machineId sensor_type : String) (current_value : ℚ)
    (updateCounter : Nat) (progression : ℚ) (hp : 0 ≤ progression) :
    0 ≤ (profileValues machineId sensor_type current_value updateCounter progression).1 := by
  unfold profileValues
  split_ifs
  · exact alphaValues_risk_nonneg _ _ _ _ hp
  · exact (betaValues_risk_bounds _ _ _ _ hp).1
  · exact (gammaValues_risk_bounds _ _ _ _ hp).1
  · exact (deltaValues_risk_bounds _ _ _ _ hp).1
  · exact le_refl _

theorem profileValues_risk_le (machineId sensor_type : String) (current_value : ℚ)
    (updateCounter : Nat) (progression : ℚ) (hp : 0 ≤ progression)
    (hm : machineId ≠ "machine-001") :
    (profileValues machineId sensor_type current_value updateCounter progression).1 ≤ 99 := by
  unfold profileValues
  rw [if_neg hm]
  split_ifs
  · exact le_trans (betaValues_risk_bounds _ _ _ _ hp).2 (by norm_num)
  · exact le_trans (gammaValues_risk_bounds _ _ _ _ hp).2 (by norm_num)
  · exact (deltaValues_risk_bounds _ _ _ _ hp).2
  · show (0 : ℚ) ≤ 99
    norm_num

/-- C20, evaluated on the code: for machine-001, sensor `temperature`, with
`updateCounter = 2001` and an accumulated progression of 1000 (0.5 added by
each of 2000 refreshes), `predictSensorTrend` computes
`10 + 2001 % 3 + 1000 / 10 = 110` and returns `risk_probability = 110`, above
100: the machine-001 branch has no ceiling. -/
theorem alpha_risk_exceeds_hundred :
    (predictSensorTrend 2001 longHistory alphaTemperature).risk_probability = 110
    ∧ ¬ ((predictSensorTrend 2001 longHistory alphaTemperature).risk_probability ≤ 100) := by
  have h : (predictSensorTrend 2001 longHistory alphaTemperature).risk_probability = 110 := by
    norm_num [predictSensorTrend, profileValues, alphaValues, longHistory, alphaTemperature,
      mathRound]
  rw [h]
  exact ⟨rfl, by decide⟩

/-- Bounded forecast risk outside machine-001: for every machine id, sensor
type, `updateCounter` and progression at least 0, the `risk_probability`
returned by `predictSensorTrend` is at least 0, and for every machine id other
than machine-001 it is at most 99, hence within 0..100. -/
theorem risk_probability_bounds (updateCounter : Nat) (history : SensorHistory)
    (sensor : Sensor) (hp : 0 ≤ history.progression) :
    0 ≤ (predictSensorTrend updateCounter history sensor).risk_probability
    ∧ (sensor.machineId ≠ "machine-001" →
        (predictSensorTrend updateCounter history sensor).risk_probability ≤ 99
        ∧ (predictSensorTrend updateCounter history sensor).risk_probability ≤ 100) := by
  refine ⟨mathRound_nonneg _ (profileValues_risk_nonneg _ _ _ _ _ hp), fun hm => ?_⟩
  have h99 : (predictSensorTrend updateCounter history sensor).risk_probability ≤ 99 :=
    mathRound_le _ 99 (by
      have := profileValues_risk_le sensor.machineId sensor.sensor_type sensor.current_value
        updateCounter history.progression hp hm
      push_cast
      exact this)
  exact ⟨h99, by omega⟩

/-- The risk bounds at the pressure sensor of machine-004 after 40
refreshes. -/
theorem risk_probability_bounds_witness :
    0 ≤ (predictSensorTrend 40 { progression := 20, previousValues := [] }
          { sensor_type := "pressure", machineId := "machine-004",
            current_value := 3.5 }).risk_probability
    ∧ (predictSensorTrend 40 { progression := 20, previousValues := [] }
          { sensor_type := "pressure", machineId := "machine-004",
            current_value := 3.5 }).risk_probability ≤ 99 :=
  have hw := risk_probability_bounds 40 { progression := 20, previousValues := [] }
    { sensor_type := "pressure", machineId := "machine-004", current_value := 3.5 }
    (by norm_num)
  ⟨hw.1, (hw.2 (by decide)).1⟩

/-! ## Demo forecast: ceilings, floors and defaults -/

theorem floorTime_ge (t f : Int) : f ≤ floorTime t f := by
  unfold floorTime
  split <;> omega

theorem floorTime_le (t f bound : Int) (ht : t ≤ bound) (hf : f ≤ bound) :
    floorTime t f ≤ bound := by
  unfold floorTime
  split <;> omega

theorem floorTime_mono (a b f : Int) (h : a ≤ b) : floorTime a f ≤ floorTime b f := by
  unfold floorTime
  split <;> split <;> omega

theorem mathFloor_mono (x y : ℚ) (h : x ≤ y) : mathFloor x ≤ mathFloor y :=
  Int.floor_mono h

theorem mathFloor_nonneg (x : ℚ) (h : 0 ≤ x) : 0 ≤ mathFloor x :=
  Int.floor_nonneg.mpr h

theorem mathRound_zero : mathRound 0 = 0 := by
  unfold mathRound
  rw [Int.floor_eq_iff]
  norm_num

/-- C21: for every `updateCounter`, history and current value, the
`risk_probability` returned by `predictSensorTrend` never exceeds the ceiling
of the profile: machine-002 temperature 75, pressure 30, vibration 35;
machine-003 temperature 90, pressure 95, vibration 75; machine-004 99 for
temperature, pressure and vibration. -/
theorem risk_ceiling_per_profile (updateCounter : Nat) (history : SensorHistory)
    (current_value : ℚ) :
    (predictSensorTrend updateCounter history
      { sensor_type := "temperature", machineId := "machine-002",
        current_value := current_value }).risk_probability ≤ 75
    ∧ (predictSensorTrend updateCounter history
      { sensor_type := "pressure", machineId := "machine-002",
        current_value := current_value }).risk_probability ≤ 30
    ∧ (predictSensorTrend updateCounter history
      { sensor_type := "vibration", machineId := "machine-002",
        current_value := current_value }).risk_probability ≤ 35
    ∧ (predictSensorTrend updateCounter history
      { sensor_type := "temperature", machineId := "machine-003",
        current_value := current_value }).risk_probability ≤ 90
    ∧ (predictSensorTrend updateCounter history
      { sensor_type := "pressure", machineId := "machine-003",
        current_value := current_value }).risk_probability ≤ 95
    ∧ (predictSensorTrend updateCounter history
      { sensor_type := "vibration", machineId := "machine-003",
        current_value := current_value }).risk_probability ≤ 75
    ∧ (predictSensorTrend updateCounter history
      { sensor_type := "temperature", machineId := "machine-004",
        current_value := current_value }).risk_probability ≤ 99
    ∧ (predictSensorTrend updateCounter history
      { sensor_type := "pressure", machineId := "machine-004",
        current_value := current_value }).risk_probability ≤ 99
    ∧ (predictSensorTrend updateCounter history
      { sensor_type := "vibration", machineId := "machine-004",
        current_value := current_value }).risk_probability ≤ 99 := by
  refine ⟨?_, ?_, ?_, ?_, ?_, ?_, ?_, ?_, ?_⟩ <;>
    simp only [predictSensorTrend, profileValues, betaValues, gammaValues, deltaValues] <;>
    simp only [String.reduceEq, if_true, if_false] <;>
    exact mathRound_le _ _ (by push_cast; exact capRisk_le _ _)

theorem sub_mathFloor_anti (k : Int) (r p p' : ℚ) (hr : 0 ≤ r) (hp : p ≤ p') :
    k - mathFloor (p' * r) ≤ k - mathFloor (p * r) := by
  have := mathFloor_mono (p * r) (p' * r) (mul_le_mul_of_nonneg_right hp hr)
  omega

theorem sub_mathFloor_le (k : Int) (r p : ℚ) (hr : 0 ≤ r) (hp : 0 ≤ p) :
    k - mathFloor (p * r) ≤ k := by
  have := mathFloor_nonneg (p * r) (mul_nonneg hp hr)
  omega

theorem profileValues_time_ge_one (machineId sensor_type : String) (current_value : ℚ)
    (updateCounter : Nat) (progression : ℚ) (t : Int)
    (h : (profileValues machineId sensor_type current_value updateCounter progression).2.1
      = some t) : 1 ≤ t := by
  unfold profileValues alphaValues betaValues gammaValues deltaValues at h
  split_ifs at h <;> dsimp only at h <;> cases h <;>
    exact le_trans (by decide) (floorTime_ge _ _)

theorem profileValues_time_le (machineId sensor_type : String) (current_value : ℚ)
    (updateCounter : Nat) (progression : ℚ) (t : Int) (hp : 0 ≤ progression)
    (h : (profileValues machineId sensor_type current_value updateCounter progression).2.1
      = some t) : t ≤ 25 := by
  unfold profileValues alphaValues betaValues gammaValues deltaValues at h
  split_ifs at h <;> dsimp only at h <;> cases h <;>
    exact floorTime_le _ _ 25
      (le_trans (sub_mathFloor_le _ _ _ (by norm_num) hp) (by decide)) (by decide)

theorem profileValues_time_anti (machineId sensor_type : String) (cv cv' : ℚ)
    (c c' : Nat) (p p' : ℚ) (t : Int) (hp : p ≤ p')
    (h : (profileValues machineId sensor_type cv c p).2.1 = some t) :
    ∃ t', (profileValues machineId sensor_type cv' c' p').2.1 = some t' ∧ t' ≤ t := by
  unfold profileValues alphaValues betaValues gammaValues deltaValues at h ⊢
  split_ifs at h ⊢ <;> dsimp only at h ⊢ <;> cases h <;>
    first
    | exact ⟨_, rfl, floorTime_mono _ _ _ (sub_mathFloor_anti _ _ _ _ (by norm_num) hp)⟩
    | (exfalso; linarith)

/-- C22: whenever `predictSensorTrend` returns a non-null `time_to_threshold`
`t`, it is an integer of at least 1 and not below the floor of the profile
(machine-002 temperature 10; machine-003 temperature 5, pressure 6, vibration
8; machine-004 temperature 1, pressure 1, vibration 2); and it is
non-increasing as progression grows: for the same machine and sensor type and
any progression at least as large, the value returned is again non-null and
at most `t`. -/
theorem time_to_threshold_floor (updateCounter : Nat) (history : SensorHistory)
    (sensor : Sensor) (t : Int)
    (h : (predictSensorTrend updateCounter history sensor).time_to_threshold = some t) :
    1 ≤ t
    ∧ (sensor.machineId = "machine-002" → sensor.sensor_type = "temperature" → 10 ≤ t)
    ∧ (sensor.machineId = "machine-003" → sensor.sensor_type = "temperature" → 5 ≤ t)
    ∧ (sensor.machineId = "machine-003" → sensor.sensor_type = "pressure" → 6 ≤ t)
    ∧ (sensor.machineId = "machine-003" → sensor.sensor_type = "vibration" → 8 ≤ t)
    ∧ (sensor.machineId = "machine-004" → sensor.sensor_type = "temperature" → 1 ≤ t)
    ∧ (sensor.machineId = "machine-004" → sensor.sensor_type = "pressure" → 1 ≤ t)
    ∧ (sensor.machineId = "machine-004" → sensor.sensor_type = "vibration" → 2 ≤ t)
    ∧ (∀ (updateCounter' : Nat) (history' : SensorHistory) (current_value' : ℚ),
        history.progression ≤ history'.progression →
        ∃ t', (predictSensorTrend updateCounter' history'
            { sensor with current_value := current_value' }).time_to_threshold = some t'
          ∧ t' ≤ t) := by
  have h1 : (profileValues sensor.machineId sensor.sensor_type sensor.current_value
      updateCounter history.progression).2.1 = some t := h
  refine ⟨profileValues_time_ge_one _ _ _ _ _ _ h1, ?_, ?_, ?_, ?_, ?_, ?_, ?_, ?_⟩
  · intro hm hs
    simp only [hm, hs, profileValues, betaValues, String.reduceEq, if_true, if_false] at h1
    split_ifs at h1
    cases h1
    exact floorTime_ge _ _
  · intro hm hs
    simp only [hm, hs, profileValues, gammaValues, String.reduceEq, if_true, if_false] at h1
    split_ifs at h1
    cases h1
    exact floorTime_ge _ _
  · intro hm hs
    simp only [hm, hs, profileValues, gammaValues, String.reduceEq, if_true, if_false] at h1
    split_ifs at h1
    cases h1
    exact floorTime_ge _ _
  · intro hm hs
    simp only [hm, hs, profileValues, gammaValues, String.reduceEq, if_true, if_false] at h1
    split_ifs at h1
    cases h1
    exact floorTime_ge _ _
  · intro hm hs
    simp only [hm, hs, profileValues, deltaValues, String.reduceEq, if_true, if_false] at h1
    cases h1
    exact floorTime_ge _ _
  · intro hm hs
    simp only [hm, hs, profileValues, deltaValues, String.reduceEq, if_true, if_false] at h1
    cases h1
    exact floorTime_ge _ _
  · intro hm hs
    simp only [hm, hs, profileValues, deltaValues, String.reduceEq, if_true, if_false] at h1
    cases h1
    exact floorTime_ge _ _
  · intro updateCounter' history' current_value' hp
    exact profileValues_time_anti _ _ _ _ _ _ _ _ _ hp h1

/-- C22, witness: the vibration sensor of machine-003 at progression 4 has
`time_to_threshold = 22 - floor(2.8) = 20`. -/
theorem time_to_threshold_floor_witness :
    (predictSensorTrend 3 { progression := 4, previousValues := [] }
        { sensor_type := "vibration", machineId := "machine-003",
          current_value := 12.2 }).time_to_threshold = some 20
    ∧ (1 : Int) ≤ 20 ∧ (8 : Int) ≤ 20 :=
  have hv : (predictSensorTrend 3 { progression := 4, previousValues := [] }
      { sensor_type := "vibration", machineId := "machine-003",
        current_value := 12.2 }).time_to_threshold = some 20 := by
    simp only [predictSensorTrend, profileValues, gammaValues, String.reduceEq, if_true,
      if_false]
    norm_num [floorTime, mathFloor]
  have hw := time_to_threshold_floor 3 { progression := 4, previousValues := [] }
    { sensor_type := "vibration", machineId := "machine-003", current_value := 12.2 } 20 hv
  ⟨hv, hw.1, hw.2.2.2.2.1 rfl rfl⟩

/-- C30: for every machine id other than machine-001 to machine-004, and for
any machine with a sensor type other than temperature, pressure and
vibration, for every `updateCounter` and history, `predictSensorTrend` returns
`risk_probability` 0, `time_to_threshold` null, `will_have_issue` false,
`future_value` equal to `current_value` rounded to two decimals, the message
`Fonctionnement normal du capteur` followed by the sensor type, and exactly
the two no-action suggestions. -/
theorem unprofiled_forecast_defaults (updateCounter : Nat) (history : SensorHistory)
    (sensor : Sensor)
    (h : (sensor.machineId ≠ "machine-001" ∧ sensor.machineId ≠ "machine-002"
          ∧ sensor.machineId ≠ "machine-003" ∧ sensor.machineId ≠ "machine-004")
        ∨ (sensor.sensor_type ≠ "temperature" ∧ sensor.sensor_type ≠ "pressure"
          ∧ sensor.sensor_type ≠ "vibration")) :
    (predictSensorTrend updateCounter history sensor).risk_probability = 0
    ∧ (predictSensorTrend updateCounter history sensor).time_to_threshold = none
    ∧ (predictSensorTrend updateCounter history sensor).will_have_issue = false
    ∧ (predictSensorTrend updateCounter history sensor).future_value
        = (mathRound (sensor.current_value * 100) : ℚ) / 100
    ∧ (predictSensorTrend updateCounter history sensor).prediction
        = "Fonctionnement normal du capteur " ++ sensor.sensor_type
    ∧ (predictSensorTrend updateCounter history sensor).suggestions
        = ["Aucune action nécessaire", "Maintenance préventive planifiée"] := by
  have hv : profileValues sensor.machineId sensor.sensor_type sensor.current_value
      updateCounter history.progression = (0, none, sensor.current_value) := by
    unfold profileValues alphaValues betaValues gammaValues deltaValues
    rcases h with ⟨h1, h2, h3, h4⟩ | ⟨h1, h2, h3⟩
    · simp only [h1, h2, h3, h4, if_false]
    · simp only [h1, h2, h3, if_false, ite_self]
  simp only [predictSensorTrend, hv, mathRound_zero, messageFor, suggestionsFor]
  norm_num

/-- C30, witness: the temperature sensor of an unprofiled machine. -/
theorem unprofiled_forecast_defaults_witness :
    (predictSensorTrend 7 { progression := 3, previousValues := [] }
      { sensor_type := "temperature", machineId := "machine-009",
        current_value := 75 }).risk_probability = 0
    ∧ (predictSensorTrend 7 { progression := 3, previousValues := [] }
      { sensor_type := "temperature", machineId := "machine-009",
        current_value := 75 }).time_to_threshold = none :=
  have hw := unprofiled_forecast_defaults 7 { progression := 3, previousValues := [] }
    { sensor_type := "temperature", machineId := "machine-009", current_value := 75 }
    (Or.inl ⟨by decide, by decide, by decide, by decide⟩)
  ⟨hw.1, hw.2.1⟩

/-- C23: the record returned by a call of `predictSensorTrend` depends only on
the sensor, `updateCounter` and the progression accumulated for that sensor:
two calls with the same sensor and counter, made in component states whose
histories give that sensor the same progression, return the same record
(`risk_probability`, `future_value`, `time_to_threshold`, message,
suggestions and `will_have_issue` included), whatever the other histories,
the previous values and the `machineAge` argument are. -/
theorem forecast_deterministic (machineHistory machineHistory' : MachineHistory)
    (updateCounter : Nat) (sensor : Sensor) (machineAge machineAge' : ℚ)
    (h : (historyOf machineHistory sensor).progression
      = (historyOf machineHistory' sensor).progression) :
    (predictSensorTrendCall machineHistory updateCounter sensor machineAge).1
      = (predictSensorTrendCall machineHistory' updateCounter sensor machineAge').1 := by
  simp only [predictSensorTrendCall, predictSensorTrend, h]

/-- C23, witness: the same sensor with the same progression in two component
states that differ in another sensor's history and in the machine age. -/
theorem forecast_deterministic_witness :
    (predictSensorTrendCall
        [("machine-003-pressure", { progression := 2, previousValues := [] })] 4
        { sensor_type := "pressure", machineId := "machine-003", current_value := 3.2 } 7).1
      = (predictSensorTrendCall
        [("machine-003-vibration", { progression := 9, previousValues := [12] }),
         ("machine-003-pressure", { progression := 2, previousValues := [3.2] })] 4
        { sensor_type := "pressure", machineId := "machine-003", current_value := 3.2 } 5).1 :=
  forecast_deterministic _ _ 4 _ 7 5 (by decide)

/-! ## Demo forecast: the soonest issue -/

theorem foldl_min_bounds (lo hi : Int) :
    ∀ (xs : List Int) (x : Int), lo ≤ x → x ≤ hi → (∀ y ∈ xs, lo ≤ y ∧ y ≤ hi) →
      lo ≤ xs.foldl min x ∧ xs.foldl min x ≤ hi := by
  intro xs
  induction xs with
  | nil => intro x h1 h2 _; exact ⟨h1, h2⟩
  | cons y rest ih =>
    intro x h1 h2 hall
    have hy := hall y (List.mem_cons_self _ _)
    apply ih (min x y) (le_min h1 hy.1) (le_trans (min_le_left _ _) h2)
    intro z hz
    exact hall z (List.mem_cons_of_mem _ hz)

theorem historyOf_progression_nonneg (machineHistory : MachineHistory) (sensor : Sensor)
    (hp : ∀ entry ∈ machineHistory, 0 ≤ entry.2.progression) :
    0 ≤ (historyOf machineHistory sensor).progression := by
  unfold historyOf
  cases hl : machineHistory.lookup (sensorKey sensor) with
  | none => simp [SensorHistory.default]
  | some hist =>
    have hmem : (sensorKey sensor, hist) ∈ machineHistory := by
      clear hp
      induction machineHistory with
      | nil => simp [List.lookup] at hl
      | cons p rest ih =>
        obtain ⟨k, v⟩ := p
        rw [List.lookup_cons] at hl
        cases hk : sensorKey sensor == k with
        | true =>
          rw [hk] at hl
          have hkk : sensorKey sensor = k := by simpa using hk
          have hv : v = hist := by simpa using hl
          rw [hkk, hv]
          exact List.mem_cons_self _ _
        | false =>
          rw [hk] at hl
          exact List.mem_cons_of_mem _ (ih hl)
    simpa using hp _ hmem

theorem issue_time_bounds (updateCounter : Nat) (history : SensorHistory) (sensor : Sensor)
    (hp : 0 ≤ history.progression)
    (h : (predictSensorTrend updateCounter history sensor).will_have_issue = true) :
    ∃ t, (predictSensorTrend updateCounter history sensor).time_to_threshold = some t
      ∧ 1 ≤ t ∧ t ≤ 25 := by
  have hsome : (predictSensorTrend updateCounter history sensor).time_to_threshold.isSome
      = true := by
    simp only [predictSensorTrend, Bool.and_eq_true] at h
    exact h.2
  obtain ⟨t, ht⟩ := Option.isSome_iff_exists.mp hsome
  exact ⟨t, ht, profileValues_time_ge_one _ _ _ _ _ _ ht,
    profileValues_time_le _ _ _ _ _ _ hp ht⟩

/-- C29: for every machine handled by `analyzeFuture`, every `updateCounter`
and every component history whose progressions are at least 0: a sensor with
`will_have_issue` has a non-null `time_to_threshold`; and if
`has_future_issues` is true then `soonest_issue` is an integer between 1 and
25, never 0 and never the fallback 999, so the display branch for
`soonest_issue === 0` is not taken. -/
theorem soonest_issue_positive (machineHistory : MachineHistory) (updateCounter : Nat)
    (machine_id : String) (machineAge : ℚ)
    (hp : ∀ entry ∈ machineHistory, 0 ≤ entry.2.progression) :
    (∀ s ∈ (analyzeMachine machineHistory updateCounter machine_id machineAge).sensors,
        s.will_have_issue = true → s.time_to_threshold ≠ none)
    ∧ ((analyzeMachine machineHistory updateCounter machine_id machineAge).has_future_issues
          = true →
        ∃ t, (analyzeMachine machineHistory updateCounter machine_id machineAge).soonest_issue
            = some t
          ∧ 1 ≤ t ∧ t ≤ 25 ∧ t ≠ 0 ∧ t ≠ 999)
    ∧ showsImmediateRisk (analyzeMachine machineHistory updateCounter machine_id machineAge)
        = false := by
  have hsensor : ∀ s ∈ (analyzeMachine machineHistory updateCounter machine_id machineAge).sensors,
      s.will_have_issue = true → ∃ t, s.time_to_threshold = some t ∧ 1 ≤ t ∧ t ≤ 25 := by
    intro s hs hw
    simp only [analyzeMachine, List.mem_map] at hs
    obtain ⟨sensor, _, rfl⟩ := hs
    exact issue_time_bounds updateCounter _ sensor
      (historyOf_progression_nonneg machineHistory sensor hp) hw
  have hsoon : (analyzeMachine machineHistory updateCounter machine_id machineAge).has_future_issues
        = true →
      ∃ t, (analyzeMachine machineHistory updateCounter machine_id machineAge).soonest_issue
          = some t ∧ 1 ≤ t ∧ t ≤ 25 := by
    intro hhas
    have hvals : ∀ y ∈ ((analyzeMachine machineHistory updateCounter machine_id
        machineAge).sensors.filter (fun s => s.will_have_issue)).map
          (fun s => timeOrFallback s.time_to_threshold), (1 : Int) ≤ y ∧ y ≤ 25 := by
      intro y hy
      obtain ⟨s, hs, rfl⟩ := List.mem_map.mp hy
      obtain ⟨hsmem, hw⟩ := List.mem_filter.mp hs
      obtain ⟨t, ht, h1, h25⟩ := hsensor s hsmem hw
      have h0 : t ≠ 0 := by omega
      simp [ht, timeOrFallback, h0, h1, h25]
    have hne : ((analyzeMachine machineHistory updateCounter machine_id
        machineAge).sensors.filter (fun s => s.will_have_issue)).map
          (fun s => timeOrFallback s.time_to_threshold) ≠ [] := by
      have hany : (analyzeMachine machineHistory updateCounter machine_id
          machineAge).sensors.any (fun s => s.will_have_issue) = true := hhas
      obtain ⟨s, hs, hw⟩ := List.any_eq_true.mp hany
      intro hnil
      have : s ∈ (analyzeMachine machineHistory updateCounter machine_id
          machineAge).sensors.filter (fun s => s.will_have_issue) :=
        List.mem_filter.mpr ⟨hs, hw⟩
      rw [List.map_eq_nil_iff] at hnil
      rw [hnil] at this
      exact List.not_mem_nil _ this
    have hsoonest : (analyzeMachine machineHistory updateCounter machine_id
        machineAge).soonest_issue
        = mathMin (((analyzeMachine machineHistory updateCounter machine_id
            machineAge).sensors.filter (fun s => s.will_have_issue)).map
            (fun s => timeOrFallback s.time_to_threshold)) := by
      have hany : (analyzeMachine machineHistory updateCounter machine_id
          machineAge).sensors.any (fun s => s.will_have_issue) = true := hhas
      simp only [analyzeMachine] at hany ⊢
      rw [if_pos hany]
    rw [hsoonest]
    cases hl : ((analyzeMachine machineHistory updateCounter machine_id
        machineAge).sensors.filter (fun s => s.will_have_issue)).map
          (fun s => timeOrFallback s.time_to_threshold) with
    | nil => exact absurd hl hne
    | cons x rest =>
      rw [hl] at hvals
      have hx := hvals x (List.mem_cons_self _ _)
      have hb := foldl_min_bounds 1 25 rest x hx.1 hx.2
        (fun y hy => hvals y (List.mem_cons_of_mem _ hy))
      exact ⟨_, rfl, hb.1, hb.2⟩
  refine ⟨?_, ?_, ?_⟩
  · intro s hs hw
    obtain ⟨t, ht, _, _⟩ := hsensor s hs hw
    simp [ht]
  · intro hhas
    obtain ⟨t, ht, h1, h25⟩ := hsoon hhas
    exact ⟨t, ht, h1, h25, by omega, by omega⟩
  · unfold showsImmediateRisk
    cases hhas : (analyzeMachine machineHistory updateCounter machine_id
        machineAge).has_future_issues with
    | false => rfl
    | true =>
      obtain ⟨t, ht, h1, _⟩ := hsoon hhas
      have h0 : t ≠ 0 := by omega
      simp [ht, h0]

/-- C29, witness: machine-004 (age 10) analysed with an empty history. -/
theorem soonest_issue_positive_witness :
    showsImmediateRisk (analyzeMachine [] 0 "machine-004" 10) = false :=
  (soonest_issue_positive [] 0 "machine-004" 10 (by simp)).2.2

/-! ## Emergency view -/

/-- C25: for every Aggregator alert state, the list the Navbar computes
(`getActiveAlerts()` filtered by the emergency marker) equals the list
`AlertsPanel` computes from the `getActiveAlerts()` it is given (filtered by
status `active` and the emergency marker), so the two counts are equal. -/
theorem navbar_and_panel_same_view (alerts : List Alert) :
    navbarActiveAlerts alerts = dashboardPanelAlerts alerts
    ∧ navbarActiveAlertsCount alerts = (dashboardPanelAlerts alerts).length := by
  have h : navbarActiveAlerts alerts = dashboardPanelAlerts alerts := by
    unfold navbarActiveAlerts dashboardPanelAlerts panelActiveAlerts getActiveAlerts
    rw [List.filter_filter, List.filter_filter]
    congr 1
    funext a
    cases hs : decide (a.status = "active") <;> simp [hs]
  exact ⟨h, by rw [navbarActiveAlertsCount, h]⟩

theorem emergencyAlert_hasEmergencyMessage (machineId machineName : String) (now : Nat)
    (nowIso : String) :
    hasEmergencyMessage (emergencyAlert machineId machineName now nowIso) = true := by
  have hdata : ("ARRÊT D'URGENCE: Machine " ++ machineName).data
      = emergencyMarker.data ++ (": Machine ".data ++ machineName.data) := by
    simp [emergencyMarker, String.data_append]
  have hne : ("ARRÊT D'URGENCE: Machine " ++ machineName) ≠ "" := by
    intro h
    have := congrArg String.data h
    rw [hdata] at this
    simp [emergencyMarker] at this
  have hinc : includes ("ARRÊT D'URGENCE: Machine " ++ machineName) emergencyMarker = true := by
    unfold includes
    rw [hdata]
    exact decide_eq_true (List.prefix_append _ _).isInfix
  simp [hasEmergencyMessage, emergencyAlert, hne, hinc]

/-- C26: for every machine list, alert state and machine id `m`: when the
REST emergency-stop call succeeds, `handleEmergencyStop(m)` prepends to the
alert state an alert with `machine_id = m`, status `active`, `risk_level` 100
and a message containing the marker; that alert is the first element of the
emergency view of the Navbar and of the panel, whose length grows by exactly
one; when the REST call fails neither the machine list nor the alert state
changes. -/
theorem emergency_stop_reflected (now : Nat) (nowIso : String) (machines : List Machine)
    (alerts : List Alert) (m : String) :
    (∃ alert,
        (handleEmergencyStop (.resolved ()) now nowIso machines alerts m).2 = alert :: alerts
        ∧ alert.machine_id = m ∧ alert.status = "active" ∧ alert.risk_level = 100
        ∧ (∃ message, alert.message = some message ∧ includes message emergencyMarker = true)
        ∧ navbarActiveAlerts (handleEmergencyStop (.resolved ()) now nowIso machines alerts m).2
            = alert :: navbarActiveAlerts alerts
        ∧ dashboardPanelAlerts
            (handleEmergencyStop (.resolved ()) now nowIso machines alerts m).2
            = alert :: dashboardPanelAlerts alerts
        ∧ navbarActiveAlertsCount
            (handleEmergencyStop (.resolved ()) now nowIso machines alerts m).2
            = navbarActiveAlertsCount alerts + 1)
    ∧ handleEmergencyStop .rejected now nowIso machines alerts m = (machines, alerts) := by
  refine ⟨?_, rfl⟩
  let name := match machines.find? (fun x => x.machine_id == m) with
    | some targetMachine => targetMachine.name
    | none => "Machine " ++ m
  have hmark := emergencyAlert_hasEmergencyMessage m name now nowIso
  have hnav : navbarActiveAlerts (emergencyAlert m name now nowIso :: alerts)
      = emergencyAlert m name now nowIso :: navbarActiveAlerts alerts := by
    have hstat : (emergencyAlert m name now nowIso).status = "active" := rfl
    simp [navbarActiveAlerts, getActiveAlerts, List.filter_cons, hmark, hstat]
  refine ⟨emergencyAlert m name now nowIso, rfl, rfl, rfl, rfl, ?_, hnav, ?_, ?_⟩
  · simp only [hasEmergencyMessage, emergencyAlert] at hmark
    have hm := hmark
    simp only [Bool.and_eq_true] at hm
    exact ⟨_, rfl, hm.2⟩
  · show dashboardPanelAlerts (emergencyAlert m name now nowIso :: alerts) = _
    rw [← (navbar_and_panel_same_view _).1, ← (navbar_and_panel_same_view _).1, hnav]
  · show navbarActiveAlertsCount (emergencyAlert m name now nowIso :: alerts) = _
    simp [navbarActiveAlertsCount, hnav]

/-! ## Synthesized alert ids -/

theorem digitChar_ne_hyphen : ∀ d < 10, Nat.digitChar d ≠ '-' := by decide

theorem digitChar_injective : ∀ a < 10, ∀ b < 10, Nat.digitChar a = Nat.digitChar b → a = b := by
  decide

theorem decimal_ne_nil (n : Nat) : decimal n ≠ [] := by
  rw [decimal]
  split <;> simp

theorem hyphen_not_mem_decimal (n : Nat) : '-' ∉ decimal n := by
  induction n using Nat.strongRecOn with
  | ind n ih =>
    rw [decimal]
    split
    · rename_i h
      simpa using (digitChar_ne_hyphen n h).symm
    · rename_i h
      simp only [List.mem_append, List.mem_singleton, not_or]
      exact ⟨ih (n / 10) (by omega), (digitChar_ne_hyphen (n % 10) (by omega)).symm⟩

theorem decimal_injective (a : Nat) : ∀ b, decimal a = decimal b → a = b := by
  induction a using Nat.strongRecOn with
  | ind a ih =>
    intro b hab
    rw [decimal, decimal.eq_1 b] at hab
    by_cases ha : a < 10 <;> by_cases hb : b < 10
    · simp only [ha, hb, dif_pos, List.cons.injEq, and_true] at hab
      exact digitChar_injective a ha b hb hab
    · simp only [ha, hb, dif_pos, dif_neg, not_false_eq_true] at hab
      have hlen := congrArg List.length hab
      simp only [List.length_singleton, List.length_append] at hlen
      have hnil : decimal (b / 10) = [] := List.length_eq_zero.mp (by omega)
      exact absurd hnil (decimal_ne_nil _)
    · simp only [ha, hb, dif_pos, dif_neg, not_false_eq_true] at hab
      have hlen := congrArg List.length hab
      simp only [List.length_singleton, List.length_append] at hlen
      have hnil : decimal (a / 10) = [] := List.length_eq_zero.mp (by omega)
      exact absurd hnil (decimal_ne_nil _)
    · simp only [ha, hb, dif_neg, not_false_eq_true] at hab
      have hparts := List.append_inj' hab rfl
      have hdiv : a / 10 = b / 10 := ih (a / 10) (by omega) _ hparts.1
      have hmod : a % 10 = b % 10 :=
        digitChar_injective _ (by omega) _ (by omega) (by simpa using hparts.2)
      omega

theorem split_at_first {α : Type} (a : α) :
    ∀ (l₁ l₂ r₁ r₂ : List α), a ∉ l₁ → a ∉ l₂ → l₁ ++ a :: r₁ = l₂ ++ a :: r₂ →
      l₁ = l₂ ∧ r₁ = r₂ := by
  intro l₁
  induction l₁ with
  | nil =>
    intro l₂ r₁ r₂ _ h2 h
    cases l₂ with
    | nil => simpa using h
    | cons b l₂ =>
      simp only [List.nil_append, List.cons_append, List.cons.injEq] at h
      exact absurd (h.1 ▸ List.mem_cons_self _ _) h2
  | cons c l₁ ih =>
    intro l₂ r₁ r₂ h1 h2 h
    cases l₂ with
    | nil =>
      simp only [List.nil_append, List.cons_append, List.cons.injEq] at h
      exact absurd (h.1 ▸ List.mem_cons_self _ _) h1
    | cons b l₂ =>
      simp only [List.cons_append, List.cons.injEq] at h
      obtain ⟨hl, hr⟩ := ih l₂ r₁ r₂ (fun hm => h1 (List.mem_cons_of_mem _ hm))
        (fun hm => h2 (List.mem_cons_of_mem _ hm)) h.2
      exact ⟨by rw [h.1, hl], hr⟩

theorem split_at_last {α : Type} (a : α) (l₁ l₂ r₁ r₂ : List α) (h1 : a ∉ r₁) (h2 : a ∉ r₂)
    (h : l₁ ++ a :: r₁ = l₂ ++ a :: r₂) : l₁ = l₂ ∧ r₁ = r₂ := by
  have hrev := congrArg List.reverse h
  simp only [List.reverse_append, List.reverse_cons, List.append_assoc, List.singleton_append]
    at hrev
  obtain ⟨hr, hl⟩ := split_at_first a r₁.reverse r₂.reverse l₁.reverse l₂.reverse
    (by simpa using h1) (by simpa using h2) hrev
  exact ⟨List.reverse_injective hl, List.reverse_injective hr⟩

/-- C27: the id `emergency-` + machineId + `-` + timestamp is injective: for
all machine-id strings and all non-negative integer timestamps rendered in
decimal, equal ids imply equal machine ids and equal timestamps. -/
theorem emergencyAlertId_injective (m1 m2 : String) (t1 t2 : Nat)
    (h : emergencyAlertId m1 t1 = emergencyAlertId m2 t2) : m1 = m2 ∧ t1 = t2 := by
  have hdata := congrArg String.data h
  simp only [emergencyAlertId, String.data_append, List.append_assoc] at hdata
  have hcancel := List.append_cancel_left hdata
  have hsplit := split_at_last '-' m1.data m2.data (decimal t1) (decimal t2)
    (hyphen_not_mem_decimal t1) (hyphen_not_mem_decimal t2) (by simpa using hcancel)
  exact ⟨String.ext hsplit.1, decimal_injective t1 t2 hsplit.2⟩

/-- C27, witness: two ids built from the same machine and timestamp. -/
theorem emergencyAlertId_injective_witness :
    emergencyAlertId "machine-002" 1717243200000 = emergencyAlertId "machine-002" 1717243200000
    ∧ ("machine-002" = "machine-002" ∧ 1717243200000 = 1717243200000) :=
  ⟨rfl, emergencyAlertId_injective "machine-002" "machine-002" 1717243200000 1717243200000 rfl⟩

/-! ## Notification Presenter: state invariant -/

theorem mem_sortByRiskDesc (a : Alert) (l : List Alert) : a ∈ sortByRiskDesc l ↔ a ∈ l :=
  (List.perm_insertionSort _ l).mem_iff

theorem presenterStep_invariant (s : PresenterState) (e : PresenterEvent)
    (h : (s.openAlert = false ∧ s.alertQueue = [] ∧ s.currentAlert = none)
      ∨ (s.openAlert = true ∧ ∃ a, s.currentAlert = some a ∧ a ∈ s.alertQueue)) :
    ((presenterStep s e).openAlert = false ∧ (presenterStep s e).alertQueue = []
        ∧ (presenterStep s e).currentAlert = none)
      ∨ ((presenterStep s e).openAlert = true
        ∧ ∃ a, (presenterStep s e).currentAlert = some a ∧ a ∈ (presenterStep s e).alertQueue) := by
  cases e with
  | newAlert alert =>
    right
    rcases h with ⟨ho, _, _⟩ | ⟨ho, a, hc, ha⟩
    · refine ⟨by simp [presenterStep, onNewAlert, ho], alert, by simp [presenterStep, onNewAlert, ho], ?_⟩
      show alert ∈ sortByRiskDesc (s.alertQueue ++ [alert])
      rw [mem_sortByRiskDesc]
      simp
    · refine ⟨by simp [presenterStep, onNewAlert, ho], a, by simp [presenterStep, onNewAlert, ho, hc], ?_⟩
      show a ∈ sortByRiskDesc (s.alertQueue ++ [alert])
      rw [mem_sortByRiskDesc]
      exact List.mem_append_left _ ha
  | close reason =>
    by_cases hr : reason = some "clickaway"
    · subst hr
      rw [show presenterStep s (.close (some "clickaway")) = s from handleCloseAlert_clickaway s]
      exact h
    · by_cases hlen : 1 < s.alertQueue.length
      · right
        rw [show presenterStep s (.close reason) = _ from handleCloseAlert_next s reason hr hlen]
        refine ⟨rfl, ?_⟩
        cases hq : s.alertQueue with
        | nil => simp [hq] at hlen
        | cons x rest =>
          cases rest with
          | nil => simp [hq] at hlen
          | cons y rest => exact ⟨y, by simp, by simp⟩
      · left
        rw [show presenterStep s (.close reason) = _ from
          handleCloseAlert_idle s reason hr (by omega)]
        exact ⟨rfl, rfl, rfl⟩
  | toggle => exact h

/-- Presenter state invariant when every close is followed by its timer
before any other event: in every Presenter state reached from the initial
state by any sequence of `new_alert` arrivals, atomic dismissals and detail
toggles, `openAlert` is false exactly when `alertQueue` is empty and exactly
when `currentAlert` is null, and whenever `openAlert` is true the displayed
`currentAlert` is an element of `alertQueue`. -/
theorem presenter_state_invariant (events : List PresenterEvent) :
    ((presenterRun events).openAlert = false ↔ (presenterRun events).alertQueue = [])
    ∧ ((presenterRun events).openAlert = false ↔ (presenterRun events).currentAlert = none)
    ∧ ((presenterRun events).openAlert = true →
        ∃ a, (presenterRun events).currentAlert = some a
          ∧ a ∈ (presenterRun events).alertQueue) := by
  have hinv : ((presenterRun events).openAlert = false ∧ (presenterRun events).alertQueue = []
        ∧ (presenterRun events).currentAlert = none)
      ∨ ((presenterRun events).openAlert = true
        ∧ ∃ a, (presenterRun events).currentAlert = some a
          ∧ a ∈ (presenterRun events).alertQueue) := by
    induction events using List.reverseRecOn with
    | nil => exact Or.inl ⟨rfl, rfl, rfl⟩
    | append_singleton events e ih =>
      rw [presenterRun_snoc]
      exact presenterStep_invariant _ e ih
  rcases hinv with ⟨ho, hq, hc⟩ | ⟨ho, a, hc, ha⟩
  · exact ⟨⟨fun _ => hq, fun _ => ho⟩, ⟨fun _ => hc, fun _ => ho⟩, fun h => by simp [ho] at h⟩
  · refine ⟨⟨fun h => by simp [ho] at h, fun h => ?_⟩, ⟨fun h => by simp [ho] at h, fun h => ?_⟩,
      fun _ => ⟨a, hc, ha⟩⟩
    · rw [h] at ha; exact absurd ha (List.not_mem_nil _)
    · rw [h] at hc; cases hc

/-! ## Notification Presenter: a close timer that fires late -/

theorem close_then_timer_eq_handleCloseAlert (s : PresenterState) (reason : Option String)
    (hr : reason ≠ some "clickaway") :
    (timelineStep (timelineStep { state := s, pending := [] } (.close reason)) .timerFires)
      = { state := handleCloseAlert s reason, pending := [] } := by
  simp [timelineStep, handleCloseAlert, requestClose, hr]

theorem arrivals_never_displayed (as : List Alert) :
    ∀ s : PresenterState, s.openAlert = true → s.currentAlert = none →
      (arrivals s as).openAlert = true ∧ (arrivals s as).currentAlert = none := by
  induction as with
  | nil => intro s ho hc; exact ⟨ho, hc⟩
  | cons a rest ih =>
    intro s ho hc
    have hstep : (onNewAlert s a).openAlert = true ∧ (onNewAlert s a).currentAlert = none := by
      simp [onNewAlert, ho, hc]
    exact ih (onNewAlert s a) hstep.1 hstep.2

/-- C28, evaluated on the code: alert `x` is shown and closed, alert `c`
arrives before the 300 ms timer fires and is displayed (`openAlert` true,
queue `[c, x]`); the timer callback then reads the queue `[x]` it captured at
the close, takes its `else` branch and empties `alertQueue` and
`currentAlert` while `openAlert` stays true.  The state reached has
`openAlert` true with an empty queue and no current alert, and from it no
sequence of arriving alerts is ever displayed. -/
theorem stale_close_timer_breaks_invariant :
    (timelineRun [.newAlert (mkAlert "x" 50), .close none, .newAlert (mkAlert "c" 60)]).state
        = { openAlert := true, currentAlert := some (mkAlert "c" 60)
            alertQueue := [mkAlert "c" 60, mkAlert "x" 50], expanded := false }
    ∧ (timelineRun [.newAlert (mkAlert "x" 50), .close none, .newAlert (mkAlert "c" 60)]).pending
        = [{ capturedQueue := [mkAlert "x" 50] }]
    ∧ (timelineRun staleTimerScenario).state
        = { openAlert := true, currentAlert := none, alertQueue := [], expanded := false }
    ∧ (timelineRun staleTimerScenario).pending = []
    ∧ ¬ ((timelineRun staleTimerScenario).state.openAlert = false
          ↔ (timelineRun staleTimerScenario).state.alertQueue = [])
    ∧ ¬ ((timelineRun staleTimerScenario).state.openAlert = false
          ↔ (timelineRun staleTimerScenario).state.currentAlert = none)
    ∧ ¬ ((timelineRun staleTimerScenario).state.openAlert = true →
          ∃ a, (timelineRun staleTimerScenario).state.currentAlert = some a
            ∧ a ∈ (timelineRun staleTimerScenario).state.alertQueue)
    ∧ (∀ as : List Alert,
        (arrivals (timelineRun staleTimerScenario).state as).openAlert = true
        ∧ (arrivals (timelineRun staleTimerScenario).state as).currentAlert = none) := by
  have hstate : (timelineRun staleTimerScenario).state
      = { openAlert := true, currentAlert := none, alertQueue := [], expanded := false } := by
    decide
  refine ⟨by decide, by decide, hstate, by decide, ?_, ?_, ?_, ?_⟩
  · rw [hstate]; simp
  · rw [hstate]; simp
  · rw [hstate]; simp
  · intro as
    exact arrivals_never_displayed as _ (by rw [hstate]) (by rw [hstate])

/-! ## Sensor readings: the rolling window -/

theorem assoc_lookup_replace {β : Type} (l : List (String × β)) (k : String) (v : β) :
    (l.map (fun p => if p.1 = k then (k, v) else p)).lookup k = (l.lookup k).map (fun _ => v) := by
  induction l with
  | nil => rfl
  | cons p rest ih =>
    obtain ⟨k', v'⟩ := p
    by_cases hk : k' = k
    · subst hk
      have hf : (if (k', v').1 = k' then (k', v) else (k', v')) = (k', v) := by simp
      rw [List.map_cons, hf, List.lookup_cons, List.lookup_cons]
      simp
    · have hne : (k == k') = false := by simpa using fun h => hk h.symm
      have hf : (if (k', v').1 = k then (k, v) else (k', v')) = (k', v') := by simp [hk]
      rw [List.map_cons, hf, List.lookup_cons, List.lookup_cons, hne]
      exact ih

theorem assoc_lookup_replace_other {β : Type} (l : List (String × β)) (k k₂ : String) (v : β)
    (h : k₂ ≠ k) :
    (l.map (fun p => if p.1 = k then (k, v) else p)).lookup k₂ = l.lookup k₂ := by
  induction l with
  | nil => rfl
  | cons p rest ih =>
    obtain ⟨k', v'⟩ := p
    have hne : (k₂ == k) = false := by simpa using h
    by_cases hk : k' = k
    · subst hk
      have hf : (if (k', v').1 = k' then (k', v) else (k', v')) = (k', v) := by simp
      rw [List.map_cons, hf, List.lookup_cons, List.lookup_cons, hne]
      exact ih
    · have hf : (if (k', v').1 = k then (k, v) else (k', v')) = (k', v') := by simp [hk]
      rw [List.map_cons, hf, List.lookup_cons, List.lookup_cons, ih]

theorem assoc_lookup_append_new {β : Type} (l : List (String × β)) (k : String) (v : β)
    (h : l.lookup k = none) : (l ++ [(k, v)]).lookup k = some v := by
  induction l with
  | nil => simp [List.lookup]
  | cons p rest ih =>
    obtain ⟨k', v'⟩ := p
    by_cases hk : k = k'
    · subst hk; simp [List.lookup] at h
    · have hne : (k == k') = false := by simpa using hk
      simp only [List.lookup, hne] at h
      simp [List.lookup, hne, ih h]

theorem assoc_lookup_append_other {β : Type} (l : List (String × β)) (k k₂ : String) (v : β)
    (h : k₂ ≠ k) : (l ++ [(k, v)]).lookup k₂ = l.lookup k₂ := by
  have hne : (k₂ == k) = false := by simpa using h
  induction l with
  | nil => simp [List.lookup, hne]
  | cons p rest ih =>
    obtain ⟨k', v'⟩ := p
    by_cases hk : k₂ = k'
    · subst hk; simp [List.lookup]
    · have hne' : (k₂ == k') = false := by simpa using hk
      simp [List.lookup, hne', ih]

theorem storedReadings_setReadings_self (prev : SensorData) (ty : String)
    (readings : List Reading) : storedReadings (setReadings prev ty readings) ty = readings := by
  unfold storedReadings setReadings
  cases hl : prev.lookup ty with
  | none => simp [assoc_lookup_append_new _ _ _ hl]
  | some old => simp [assoc_lookup_replace, hl]

theorem storedReadings_setReadings_other (prev : SensorData) (ty ty₂ : String)
    (readings : List Reading) (h : ty₂ ≠ ty) :
    storedReadings (setReadings prev ty readings) ty₂ = storedReadings prev ty₂ := by
  unfold storedReadings setReadings
  cases hl : prev.lookup ty with
  | none => simp [assoc_lookup_append_other _ _ _ _ h]
  | some old => simp [assoc_lookup_replace_other _ _ _ _ h]

theorem onSensorUpdate_other_machine (m : String) (prev : SensorData) (e : SensorUpdate)
    (h : e.machine_id ≠ m) : onSensorUpdate m prev e = (.returned (), prev) := by
  simp [onSensorUpdate, h]

theorem onSensorUpdate_other_type (m : String) (prev : SensorData) (e : SensorUpdate)
    (ty : String) (h : ty ≠ e.sensor_type) :
    storedReadings (onSensorUpdate m prev e).2 ty = storedReadings prev ty := by
  unfold onSensorUpdate
  split
  · cases sensorEntry prev e.sensor_type with
    | undefined => exact storedReadings_setReadings_other _ _ _ _ h
    | array readings => exact storedReadings_setReadings_other _ _ _ _ h
    | inherited => rfl
  · rfl

theorem onSensorUpdate_same_type (m : String) (prev : SensorData) (e : SensorUpdate)
    (hm : e.machine_id = m) (hty : e.sensor_type ∉ objectPrototypeKeys) :
    (onSensorUpdate m prev e).1 = .returned ()
    ∧ storedReadings (onSensorUpdate m prev e).2 e.sensor_type
      = readingOf m e :: (storedReadings prev e.sensor_type).take 49 := by
  have hnot : objectPrototypeKeys.contains e.sensor_type = false := by simpa using hty
  unfold onSensorUpdate
  rw [if_pos hm]
  cases hl : prev.lookup e.sensor_type with
  | none =>
    have hentry : sensorEntry prev e.sensor_type = .undefined := by
      simp [sensorEntry, hl, hty]
    rw [hentry]
    exact ⟨rfl, by rw [storedReadings_setReadings_self]; simp [storedReadings, hl]⟩
  | some readings =>
    have hentry : sensorEntry prev e.sensor_type = .array readings := by
      simp [sensorEntry, hl]
    rw [hentry]
    exact ⟨rfl, by rw [storedReadings_setReadings_self]; simp [storedReadings, hl]⟩

theorem sensorDataAfter_snoc (m : String) (events : List SensorUpdate) (e : SensorUpdate) :
    sensorDataAfter m (events ++ [e]) = (onSensorUpdate m (sensorDataAfter m events) e).2 := by
  simp [sensorDataAfter, List.foldl_append]

/-- C24, evaluated on the code: a `sensor_update` event of the displayed
machine whose sensor type is `constructor` makes the state updater throw
(`newData["constructor"]` is the inherited `Object` function, which has no
`slice`): nothing is stored for that sensor type, although one reading of that
type was received for the machine. -/
theorem sensor_update_inherited_type_throws :
    (onSensorUpdate "machine-002" [] inheritedTypeUpdate).1 = .threw
    ∧ storedReadings (sensorDataAfter "machine-002" [inheritedTypeUpdate]) "constructor" = []
    ∧ recentReadings "machine-002" "constructor" [inheritedTypeUpdate]
        = [readingOf "machine-002" inheritedTypeUpdate]
    ∧ storedReadings (sensorDataAfter "machine-002" [inheritedTypeUpdate]) "constructor"
        ≠ recentReadings "machine-002" "constructor" [inheritedTypeUpdate] := by
  decide

/-- Bounded rolling reading window for ordinary sensor types: for every
sequence of `sensor_update` events handled for machine `m` in which no event
of `m` has a sensor type named like a property inherited from
`Object.prototype`, the list stored for each sensor type has length at most 50
and equals the up to 50 most recent readings of that type with
`machine_id = m`, newest first; an event of another machine leaves
`sensorData` unchanged, and an event leaves the lists of all sensor types
other than its own unchanged. -/
theorem rolling_window (m : String) (events : List SensorUpdate)
    (hty : ∀ e ∈ events, e.machine_id = m → e.sensor_type ∉ objectPrototypeKeys) :
    (∀ ty, storedReadings (sensorDataAfter m events) ty = recentReadings m ty events)
    ∧ (∀ ty, (storedReadings (sensorDataAfter m events) ty).length ≤ 50)
    ∧ (∀ prev e, e.machine_id ≠ m → onSensorUpdate m prev e = (.returned (), prev))
    ∧ (∀ prev e ty, ty ≠ e.sensor_type →
        storedReadings (onSensorUpdate m prev e).2 ty = storedReadings prev ty) := by
  have hmain : ∀ ty, storedReadings (sensorDataAfter m events) ty = recentReadings m ty events := by
    induction events using List.reverseRecOn with
    | nil => intro ty; rfl
    | append_singleton events e ih =>
      intro ty
      have ih' := ih (fun x hx => hty x (List.mem_append_left _ hx))
      rw [sensorDataAfter_snoc]
      by_cases hm : e.machine_id = m
      · by_cases ht : ty = e.sensor_type
        · subst ht
          have hstep := (onSensorUpdate_same_type m (sensorDataAfter m events) e hm
            (hty e (by simp) hm)).2
          rw [hstep, ih' e.sensor_type]
          simp [recentReadings, List.filter_append, hm, List.take_take]
        · rw [onSensorUpdate_other_type m _ e ty ht, ih' ty]
          have hne : ¬ e.sensor_type = ty := fun h => ht h.symm
          simp [recentReadings, List.filter_append, hne]
      · rw [onSensorUpdate_other_machine m _ e hm, ih' ty]
        simp [recentReadings, List.filter_append, hm]
  refine ⟨hmain, fun ty => ?_, fun prev e h => onSensorUpdate_other_machine m prev e h,
    fun prev e ty h => onSensorUpdate_other_type m prev e ty h⟩
  rw [hmain ty]
  simp [recentReadings, List.length_take]

/-- The rolling window on two temperature readings of machine-002 with a
reading of another machine in between. -/
theorem rolling_window_witness :
    storedReadings (sensorDataAfter "machine-002"
        [{ machine_id := "machine-002", sensor_type := "temperature", sensor_id := some 1
           value := 70, timestamp := "t1" },
         { machine_id := "machine-003", sensor_type := "temperature", sensor_id := some 2
           value := 90, timestamp := "t2" },
         { machine_id := "machine-002", sensor_type := "temperature", sensor_id := none
           value := 71, timestamp := "t3" }]) "temperature"
      = [{ sensor_id := 0, value := 71, timestamp := "t3", sensor_type := "temperature"
           machine_id := "machine-002" },
         { sensor_id := 1, value := 70, timestamp := "t1", sensor_type := "temperature"
           machine_id := "machine-002" }] :=
  ((rolling_window "machine-002" _ (by decide)).1 "temperature").trans (by decide)

end Surveillance
